import Mathlib

/-!
Verification of the `primrose-mcp-gcloud` server: a shallow embedding of the
HTTP client (`src/client.ts`), the response formatters
(`src/utils/formatters.ts`), and representative MCP tool handlers
(`src/tools/*.ts`), together with theorems settling the specification claims.

JavaScript runtime values reaching the formatters and request bodies are
modelled by the inductive `JVal` (JSON values plus `undefined`).  Numbers are
modelled as integers: every numeric value these code paths produce or consume
(HTTP statuses, `maxMessages`, `pageSize`, sizes) is integral, and IEEE-754
rendering of non-integral numbers is outside the embedding.
-/

namespace PrimroseGCloud

/-- JavaScript values as seen by the formatters and request-body builders:
JSON values extended with `undefined` (distinct from `null`, since
`JSON.stringify` omits object fields holding `undefined` but renders `null`). -/
inductive JVal where
  | jnull
  | jundefined
  | jbool (b : Bool)
  | jint (n : Int)
  | jstr (s : String)
  | jarr (elems : List JVal)
  | jobj (fields : List (String × JVal))
deriving Repr

/-- JavaScript truthiness (`Boolean(v)`): `undefined`, `null`, `false`, `0`
and `""` are falsy; every object (including `[]` and `{}`) is truthy. -/
def jsTruthy : JVal → Bool
  | .jnull => false
  | .jundefined => false
  | .jbool b => b
  | .jint n => n != 0
  | .jstr s => s != ""
  | .jarr _ => true
  | .jobj _ => true

mutual
/-- JavaScript string coercion `String(v)` for the values of the embedding.
Objects render as `[object Object]` and arrays join their elements with
commas, as in JS.  (Function-valued properties do not occur in API data.) -/
def jsCoerceString : JVal → String
  | .jnull => "null"
  | .jundefined => "undefined"
  | .jbool b => if b then "true" else "false"
  | .jint n => toString n
  | .jstr s => s
  | .jobj _ => "[object Object]"
  | .jarr xs => String.intercalate "," (jsCoerceElems xs)

/-- Inside `Array.prototype.join`, `null` and `undefined` elements render as
the empty string rather than as "null"/"undefined". -/
def jsCoerceElems : List JVal → List String
  | [] => []
  | .jnull :: xs => "" :: jsCoerceElems xs
  | .jundefined :: xs => "" :: jsCoerceElems xs
  | v :: xs => jsCoerceString v :: jsCoerceElems xs
end

/-- JavaScript property read `v[key]` as it occurs in the formatters and tool
handlers.  Objects look the key up in insertion order; arrays expose their
numeric indices and `length`; strings expose `length` and their characters.
Reads on `null`/`undefined` yield `undefined` here; real JS throws a
`TypeError` on non-optional access, so theorems about code paths that read
properties of arbitrary row values exclude `null`/`undefined` rows. -/
def jsIndex (v : JVal) (key : String) : JVal :=
  match v with
  | .jobj fields => (fields.lookup key).getD .jundefined
  | .jarr xs =>
      if key = "length" then .jint xs.length
      else match key.toNat? with
        | some i => (xs.getD i .jundefined)
        | none => .jundefined
  | .jstr s =>
      if key = "length" then .jint s.length
      else match key.toNat? with
        | some i => if i < s.length then .jstr (String.mk [s.data.getD i ' ']) else .jundefined
        | none => .jundefined
  | _ => .jundefined

/-- JavaScript `a || b` on a value and a default, as in `result.items || []`. -/
def jsOr (a b : JVal) : JVal := if jsTruthy a then a else b

/-- JSON string escaping as performed by `JSON.stringify`: quotes, backslash,
and control characters are escaped; other characters pass through. -/
def jsonEscapeChar (c : Char) : List Char :=
  if c = '"' then ['\\', '"']
  else if c = '\\' then ['\\', '\\']
  else if c = '\n' then ['\\', 'n']
  else if c = '\r' then ['\\', 'r']
  else if c = '\t' then ['\\', 't']
  else if c.toNat = 8 then ['\\', 'b']
  else if c.toNat = 12 then ['\\', 'f']
  else if c.toNat < 32 then
    ['\\', 'u', '0', '0', (Nat.digitChar (c.toNat / 16)), (Nat.digitChar (c.toNat % 16))]
  else [c]

/-- A JSON string literal: `"` + escaped contents + `"`. -/
def jsonQuote (s : String) : String :=
  "\"" ++ String.mk ((s.data.map jsonEscapeChar).flatten) ++ "\""

mutual
/-- Serialization core of `JSON.stringify(v, null, 2)` (when `ind` carries the
current indentation) and of plain `JSON.stringify(v)` (when `ind = none`).
Returns `none` for `undefined`, which stringify omits (in objects) or renders
as `null` (in arrays). -/
def jsonSer (ind : Option String) : JVal → Option String
  | .jundefined => none
  | .jnull => some "null"
  | .jbool b => some (if b then "true" else "false")
  | .jint n => some (toString n)
  | .jstr s => some (jsonQuote s)
  | .jarr xs =>
      some (match ind with
        | none => "[" ++ String.intercalate "," (jsonSerArr none xs) ++ "]"
        | some i =>
            let items := jsonSerArr (some (i ++ "  ")) xs
            if items.isEmpty then "[]"
            else "[\n" ++ String.intercalate ",\n" (items.map fun it => i ++ "  " ++ it) ++
              "\n" ++ i ++ "]")
  | .jobj fs =>
      some (match ind with
        | none =>
            "\x7b" ++ String.intercalate "," ((jsonSerObj none fs).map
              fun kv => jsonQuote kv.1 ++ ":" ++ kv.2) ++ "\x7d"
        | some i =>
            let items := jsonSerObj (some (i ++ "  ")) fs
            if items.isEmpty then "\x7b\x7d"
            else "\x7b\n" ++ String.intercalate ",\n" (items.map
              fun kv => i ++ "  " ++ jsonQuote kv.1 ++ ": " ++ kv.2) ++
              "\n" ++ i ++ "\x7d")

/-- Serializes the elements of an array; `undefined` elements render `null`. -/
def jsonSerArr (ind : Option String) : List JVal → List String
  | [] => []
  | x :: xs => ((jsonSer ind x).getD "null") :: jsonSerArr ind xs

/-- Serializes the fields of an object, dropping fields whose value is
`undefined`, in insertion order. -/
def jsonSerObj (ind : Option String) : List (String × JVal) → List (String × String)
  | [] => []
  | (k, v) :: fs =>
      match jsonSer ind v with
      | none => jsonSerObj ind fs
      | some s => (k, s) :: jsonSerObj ind fs
end

/-- Compact serialization `JSON.stringify(v)`, used for request bodies.
(Top-level `undefined` has no JSON text; it does not occur in bodies.) -/
def jsonStringify (v : JVal) : String := (jsonSer none v).getD "undefined"

/-- Pretty serialization `JSON.stringify(v, null, 2)` with two-space
indentation, used by `formatResponse` and `formatError`. -/
def jsonStringifyPretty (v : JVal) : String := (jsonSer (some "") v).getD "undefined"

/-- A thrown JavaScript error as `formatError` sees it: its `name`, `message`,
and the optional `code` / `statusCode` properties read off it
(`JSON.stringify` omits the ones that are `undefined`). -/
structure JsError where
  name : String
  message : String
  code : Option JVal := none
  statusCode : Option Nat := none
deriving Repr

/-- Modelled from the spec: `src/utils/errors.ts` is not among the sources;
per the spec's error taxonomy ("authentication, permission, not-found,
rate-limit, generic"), `AuthenticationError` carries the given message with
its class name, a stable code, and HTTP status 401. -/
def AuthenticationError (message : String) : JsError :=
  { name := "AuthenticationError", message := message,
    code := some (.jstr "UNAUTHENTICATED"), statusCode := some 401 }

/-- Modelled from the spec: permission-denied taxonomy error (status 403). -/
def PermissionDeniedError (message : String) : JsError :=
  { name := "PermissionDeniedError", message := message,
    code := some (.jstr "PERMISSION_DENIED"), statusCode := some 403 }

/-- Modelled from the spec: not-found taxonomy error (status 404); the client
constructs it from a resource kind and an identifier (`client.ts` passes
`('Resource', url)`), and the message names both. -/
def NotFoundError (resource : String) (identifier : String) : JsError :=
  { name := "NotFoundError", message := resource ++ " not found: " ++ identifier,
    code := some (.jstr "NOT_FOUND"), statusCode := some 404 }

/-- Modelled from the spec: rate-limit taxonomy error (status 429).  The
retry-after argument (`none` models `NaN` from `parseInt`) is stored on the
error object but is not among the four properties `formatError` serializes. -/
def RateLimitError (message : String) (_retryAfter : Option Int) : JsError :=
  { name := "RateLimitError", message := message,
    code := some (.jstr "RATE_LIMITED"), statusCode := some 429 }

/-- Modelled from the spec: the generic API taxonomy error carrying the HTTP
status code of the failed response. -/
def GCloudApiError (message : String) (statusCode : Nat) : JsError :=
  { name := "GCloudApiError", message := message,
    code := some (.jstr "GCLOUD_API_ERROR"), statusCode := some statusCode }

/-- The platform `SyntaxError` thrown by `response.json()` / `JSON.parse`
when a body is not valid JSON.  It has no `code` or `statusCode` property. -/
def jsonParseErr : JsError :=
  { name := "SyntaxError", message := "Unexpected end of JSON input" }

/-- The platform `DOMException` thrown by `btoa` on a string with a character
above U+00FF, and by `atob` on invalid base64.  Its legacy `code` property is
the number 5; it has no `statusCode`. -/
def invalidCharacterErr : JsError :=
  { name := "InvalidCharacterError",
    message := "The string contains invalid characters.", code := some (.jint 5) }

/-- The platform `TypeError` thrown when a handler reads a property of an
`undefined` API result (e.g. `result.items` after a 204 response). -/
def typeErrorRead (property : String) : JsError :=
  { name := "TypeError",
    message := "Cannot read properties of undefined (reading " ++ property ++ ")" }

/-- One item of an MCP tool response: always `{ type: 'text', text }` here. -/
structure ContentItem where
  type : String
  text : String
deriving DecidableEq, Repr

/-- The uniform MCP response envelope.  `isError = none` models the absence
of the `isError` key (success responses never set it). -/
structure Envelope where
  content : List ContentItem
  isError : Option Bool := none
deriving DecidableEq, Repr

/-- The output format argument of `formatResponse`. -/
inductive RespFormat where
  | json
  | markdown
deriving DecidableEq, Repr

/-- Helper of `formatObjectAsMarkdown` and `formatArrayAsMarkdown` for the
`resourceType || 'items'`-style defaulting (`undefined` and `""` are falsy). -/
def jsStrOr (o : Option String) (d : String) : String :=
  match o with
  | some s => if s = "" then d else s
  | none => d

/-- Embeds `formatArrayAsMarkdown` (`src/utils/formatters.ts`): an empty array
reports `No {resourceType} found.`; a non-object first element produces a
bullet list; otherwise a table whose columns are the first six keys of the
first element, with `null`/`undefined` cells as `-`, object cells as
`[object]`, and other cells `String(value).substring(0, 50)`. -/
def formatArrayAsMarkdown (items : List JVal) (resourceType : Option String) : String :=
  match items with
  | [] => "No " ++ jsStrOr resourceType "items" ++ " found."
  | firstItem :: _ =>
      match firstItem with
      | .jobj _ | .jarr _ =>
          let keys := (jsObjectKeys firstItem).take 6
          let header := "| " ++ String.intercalate " | " keys ++ " |"
          let separator := "| " ++ String.intercalate " | " (keys.map fun _ => "---") ++ " |"
          let rows := items.map fun item =>
            let values := keys.map fun key =>
              match jsIndex item key with
              | .jnull => "-"
              | .jundefined => "-"
              | .jobj _ => "[object]"
              | .jarr _ => "[object]"
              | v => (jsCoerceString v).take 50
            "| " ++ String.intercalate " | " values ++ " |"
          String.intercalate "\n" (header :: separator :: rows)
      | _ => String.intercalate "\n" (items.map fun item => "- " ++ jsCoerceString item)
where
  /-- The `Object.keys` order: an object's own keys in insertion order; an array's
  indices as strings (arrays satisfy `typeof x === 'object'` too). -/
  jsObjectKeys : JVal → List String
    | .jobj fields => fields.map Prod.fst
    | .jarr xs => (List.range xs.length).map toString
    | _ => []

/-- Embeds `formatObjectAsMarkdown`: an optional `## {resourceType}` title,
then one `**key:** value` line per field (with `-` for `null`/`undefined` and
a fenced JSON block for object values), joined by blank lines. -/
def formatObjectAsMarkdown (fields : List (String × JVal)) (resourceType : Option String) : String :=
  let title := match resourceType with
    | some r => if r = "" then "" else "## " ++ r ++ "\n\n"
    | none => ""
  let lines := fields.map fun kv =>
    match kv.2 with
    | .jnull => "**" ++ kv.1 ++ ":** -"
    | .jundefined => "**" ++ kv.1 ++ ":** -"
    | .jobj _ | .jarr _ =>
        "**" ++ kv.1 ++ ":**\n```json\n" ++ jsonStringifyPretty kv.2 ++ "\n```"
    | v => "**" ++ kv.1 ++ ":** " ++ jsCoerceString v
  title ++ String.intercalate "\n\n" lines

/-- Embeds `formatAsMarkdown`: arrays and (non-null) objects dispatch to the
table/key-value renderers, anything else is `String(data)`. -/
def formatAsMarkdown (data : JVal) (resourceType : Option String) : String :=
  match data with
  | .jarr xs => formatArrayAsMarkdown xs resourceType
  | .jobj fs => formatObjectAsMarkdown fs resourceType
  | v => jsCoerceString v

/-- Embeds `formatResponse` (`src/utils/formatters.ts`): the success envelope,
whose single text item is the markdown rendering or `JSON.stringify(data,
null, 2)`.  No `isError` key is set. -/
def formatResponse (data : JVal) (format : RespFormat) (resourceType : Option String) : Envelope :=
  match format with
  | .markdown => { content := [{ type := "text", text := formatAsMarkdown data resourceType }] }
  | .json => { content := [{ type := "text", text := jsonStringifyPretty data }] }

/-- The object `formatError` serializes for a thrown `Error`:
`{ error: true, name, message, code, statusCode }`, where `JSON.stringify`
omits the `code`/`statusCode` fields of errors that lack them. -/
def formatErrorPayload (e : JsError) : JVal :=
  .jobj [("error", .jbool true), ("name", .jstr e.name), ("message", .jstr e.message),
    ("code", e.code.getD .jundefined),
    ("statusCode", match e.statusCode with | some n => .jint n | none => .jundefined)]

/-- Embeds `formatError` (`src/utils/formatters.ts`) on thrown `Error`
instances (every value thrown in the embedded code paths is one): the error
envelope with `isError: true` and the pretty-printed error payload. -/
def formatError (e : JsError) : Envelope :=
  { content := [{ type := "text", text := jsonStringifyPretty (formatErrorPayload e) }],
    isError := some true }

/-- The base64 alphabet used by `btoa`/`atob`. -/
def b64Chars : List Char :=
  "ABCDEFGHIJKLMNOPQRSTUVWXYZabcdefghijklmnopqrstuvwxyz0123456789+/".data

/-- The base64 digit for a 6-bit value. -/
def b64Char (n : Nat) : Char := b64Chars.getD n 'A'

/-- The 6-bit value of a base64 digit, `none` for characters outside the
alphabet (on which `atob` throws). -/
def b64Val (c : Char) : Option Nat :=
  let i := b64Chars.indexOf c
  if i < 64 then some i else none

/-- Standard base64 encoding of a byte sequence, three bytes to four digits,
with `=` padding — the encoding performed by the platform `btoa`. -/
def base64Encode : List Nat → List Char
  | [] => []
  | [a] => [b64Char (a / 4), b64Char (a % 4 * 16), '=', '=']
  | [a, b] => [b64Char (a / 4), b64Char (a % 4 * 16 + b / 16), b64Char (b % 16 * 4), '=']
  | a :: b :: c :: rest =>
      b64Char (a / 4) :: b64Char (a % 4 * 16 + b / 16) :: b64Char (b % 16 * 4 + c / 64) ::
        b64Char (c % 64) :: base64Encode rest

/-- Forgiving base64 decoding as performed by the platform `atob`: four
digits to three bytes, `=`-padded or unpadded final group, `none` (a thrown
`InvalidCharacterError`) on malformed input.  (`atob` additionally strips
ASCII whitespace first; the data fields reaching it contain none.) -/
def base64Decode : List Char → Option (List Nat)
  | [] => some []
  | [c1, c2] => do
      let v1 ← b64Val c1
      let v2 ← b64Val c2
      some [v1 * 4 + v2 / 16]
  | [c1, c2, c3] => do
      let v1 ← b64Val c1
      let v2 ← b64Val c2
      let v3 ← b64Val c3
      some [v1 * 4 + v2 / 16, v2 % 16 * 16 + v3 / 4]
  | c1 :: c2 :: c3 :: c4 :: rest =>
      match b64Val c1, b64Val c2 with
      | some v1, some v2 =>
          if c3 = '=' then
            if c4 = '=' ∧ rest = [] then some [v1 * 4 + v2 / 16] else none
          else
            match b64Val c3 with
            | some v3 =>
                if c4 = '=' then
                  if rest = [] then some [v1 * 4 + v2 / 16, v2 % 16 * 16 + v3 / 4] else none
                else
                  match b64Val c4 with
                  | some v4 =>
                      (base64Decode rest).map fun tl =>
                        (v1 * 4 + v2 / 16) :: (v2 % 16 * 16 + v3 / 4) :: (v3 % 4 * 64 + v4) :: tl
                  | none => none
            | none => none
      | _, _ => none
  | _ => none

/-- The platform `btoa`: base64 of the code points of a Latin-1 string,
`none` (a thrown `InvalidCharacterError`) if any character is above U+00FF. -/
def btoa (s : String) : Option String :=
  if s.data.all (fun c => c.toNat < 256) then
    some (String.mk (base64Encode (s.data.map Char.toNat)))
  else none

/-- The platform `atob`: base64 decoding back to a string of Latin-1
characters, `none` (a thrown `InvalidCharacterError`) on invalid base64. -/
def atob (s : String) : Option String :=
  (base64Decode s.data).map fun bytes => String.mk (bytes.map Char.ofNat)

theorem b64Val_b64Char : ∀ n, n < 64 → b64Val (b64Char n) = some n := by decide

theorem b64Char_ne_pad : ∀ n, n < 64 → b64Char n ≠ '=' := by decide

/-- Base64 decoding is a left inverse of encoding on byte sequences. -/
theorem base64Decode_base64Encode :
    ∀ l : List Nat, (∀ x ∈ l, x < 256) → base64Decode (base64Encode l) = some l
  | [], _ => rfl
  | [a], h => by
      have ha : a < 256 := h a (by simp)
      have h1 : a / 4 < 64 := by omega
      have h2 : a % 4 * 16 < 64 := by omega
      have e1 := b64Val_b64Char _ h1
      have e2 := b64Val_b64Char _ h2
      simp [base64Encode, base64Decode, e1, e2]
      omega
  | [a, b], h => by
      have ha : a < 256 := h a (by simp)
      have hb : b < 256 := h b (by simp)
      have h1 : a / 4 < 64 := by omega
      have h2 : a % 4 * 16 + b / 16 < 64 := by omega
      have h3 : b % 16 * 4 < 64 := by omega
      have e1 := b64Val_b64Char _ h1
      have e2 := b64Val_b64Char _ h2
      have e3 := b64Val_b64Char _ h3
      have n3 := b64Char_ne_pad _ h3
      simp [base64Encode, base64Decode, e1, e2, e3, n3]
      omega
  | a :: b :: c :: rest, h => by
      have ha : a < 256 := h a (by simp)
      have hb : b < 256 := h b (by simp)
      have hc : c < 256 := h c (by simp)
      have h1 : a / 4 < 64 := by omega
      have h2 : a % 4 * 16 + b / 16 < 64 := by omega
      have h3 : b % 16 * 4 + c / 64 < 64 := by omega
      have h4 : c % 64 < 64 := by omega
      have e1 := b64Val_b64Char _ h1
      have e2 := b64Val_b64Char _ h2
      have e3 := b64Val_b64Char _ h3
      have e4 := b64Val_b64Char _ h4
      have n3 := b64Char_ne_pad _ h3
      have n4 := b64Char_ne_pad _ h4
      have ih := base64Decode_base64Encode rest (fun x hx => h x (by simp [hx]))
      simp [base64Encode, base64Decode, e1, e2, e3, e4, n3, n4, ih]
      omega

/-- The platform `atob` inverts `btoa` on Latin-1 strings. -/
theorem atob_btoa (s : String) (h : ∀ c ∈ s.data, c.toNat < 256) :
    ∃ e, btoa s = some e ∧ atob e = some s := by
  have hall : s.data.all (fun c => c.toNat < 256) = true := by
    rw [List.all_eq_true]
    intro c hc
    simpa using h c hc
  refine ⟨String.mk (base64Encode (s.data.map Char.toNat)), by simp [btoa, hall], ?_⟩
  have hbytes : ∀ x ∈ s.data.map Char.toNat, x < 256 := by
    intro x hx
    obtain ⟨c, hc, rfl⟩ := List.mem_map.mp hx
    exact h c hc
  simp only [atob, base64Decode_base64Encode _ hbytes, Option.map_some', Option.some.injEq]
  rw [List.map_map]
  have hpt : ∀ c ∈ s.data, (Char.ofNat ∘ Char.toNat) c = id c := fun c _ => Char.ofNat_toNat c
  rw [List.map_congr_left hpt, List.map_id]

/-- Modelled from the spec: `src/types/env.ts` is not among the sources.  Per
the spec, tenant credentials are a "per-request bearer token and project
identifier"; `none` models a header that was absent, and the client treats an
empty token like an absent one (JS falsiness). -/
structure TenantCredentials where
  accessToken : Option String
  projectId : Option String
deriving DecidableEq, Repr

/-- Whether `credentials.accessToken` is truthy (present and non-empty),
the check `getAuthHeaders` performs. -/
def tokenPresent (creds : TenantCredentials) : Bool :=
  match creds.accessToken with
  | some t => t != ""
  | none => false

/-- An outbound HTTP request as handed to `fetch`. -/
structure HttpRequest where
  method : String
  url : String
  headers : List (String × String)
  body : Option String
deriving DecidableEq, Repr

/-- A response body, modelled by its JSON parse: `json v` parses to `v`,
`text raw` is not valid JSON (so `JSON.parse` / `response.json()` throw). -/
inductive RespBody where
  | text (raw : String)
  | json (v : JVal)
deriving Repr

/-- An HTTP response as the client observes it: status, the `Retry-After`
header (read only for 429), and the body. -/
structure HttpResponse where
  status : Nat
  retryAfterHeader : Option String := none
  body : RespBody := .json .jnull
deriving Repr

/-- The `RequestInit` options the client methods pass to `request`: only a
method (`fetch` defaults to GET) and an optional body ever appear. -/
structure RequestOptions where
  method : String := "GET"
  body : Option String := none
deriving DecidableEq, Repr

/-- Embeds `GCloudClientImpl.getAuthHeaders` (`src/client.ts`): throws the
authentication error when the access token is falsy, otherwise produces the
`Authorization: Bearer ...` and `Content-Type` headers. -/
def getAuthHeaders (creds : TenantCredentials) : Except JsError (List (String × String)) :=
  match creds.accessToken with
  | none =>
      .error (AuthenticationError "No access token provided. Include X-GCloud-Access-Token header.")
  | some "" =>
      .error (AuthenticationError "No access token provided. Include X-GCloud-Access-Token header.")
  | some t =>
      .ok [("Authorization", "Bearer " ++ t), ("Content-Type", "application/json")]

/-- JavaScript `parseInt(s, 10)`: leading whitespace, an optional sign, then
a maximal run of digits; `none` models `NaN`. -/
def jsParseInt (s : String) : Option Int :=
  let cs := s.data.dropWhile Char.isWhitespace
  match cs with
  | '-' :: rest => (digitsValue rest).map fun n => -(n : Int)
  | '+' :: rest => (digitsValue rest).map fun n => (n : Int)
  | _ => (digitsValue cs).map fun n => (n : Int)
where
  /-- Value of the maximal digit run at the front, `none` if there is none. -/
  digitsValue (cs : List Char) : Option Nat :=
    let ds := cs.takeWhile Char.isDigit
    if ds.isEmpty then none
    else some (ds.foldl (fun acc c => acc * 10 + (c.toNat - 48)) 0)

/-- Embeds the error-message extraction of `request` for non-2xx statuses
other than 429/401/403/404: `errorJson.error?.message || errorJson.message`,
falling back to `API error: {status}` when the body is not JSON or has no
truthy message.  (The `Error` constructor coerces a non-string message to a
string; the coercion is folded in here.) -/
def extractErrorMessage (body : RespBody) (status : Nat) : String :=
  let dflt := "API error: " ++ toString status
  match body with
  | .text _ => dflt
  | .json v =>
      let m1 := jsIndex (jsIndex v "error") "message"
      if jsTruthy m1 then jsCoerceString m1
      else
        let m2 := jsIndex v "message"
        if jsTruthy m2 then jsCoerceString m2 else dflt

/-- Embeds the response half of `GCloudClientImpl.request`: status 429, 401,
403 and 404 raise their taxonomy errors; any other non-2xx status raises the
generic API error with the extracted message; 204 yields no value; otherwise
the parsed JSON body (a non-JSON 2xx body makes `response.json()` throw). -/
def handleResponse (url : String) (resp : HttpResponse) : Except JsError (Option JVal) :=
  if resp.status = 429 then
    .error (RateLimitError "Rate limit exceeded"
      (match resp.retryAfterHeader with
        | some s => jsParseInt s
        | none => some 60))
  else if resp.status = 401 then
    .error (AuthenticationError "Authentication failed. Check your access token.")
  else if resp.status = 403 then
    .error (PermissionDeniedError "Permission denied. Check your IAM permissions.")
  else if resp.status = 404 then
    .error (NotFoundError "Resource" url)
  else if ¬(200 ≤ resp.status ∧ resp.status ≤ 299) then
    .error (GCloudApiError (extractErrorMessage resp.body resp.status) resp.status)
  else if resp.status = 204 then
    .ok none
  else
    match resp.body with
    | .json v => .ok (some v)
    | .text _ => .error jsonParseErr

/-- Embeds `GCloudClientImpl.request` (`src/client.ts`): build the auth
headers (throwing before any fetch when the token is falsy), issue exactly
one fetch to the transport, and classify the response.  The first component
is the trace of transport calls made. -/
def request (creds : TenantCredentials) (url : String) (opts : RequestOptions)
    (transport : HttpRequest → HttpResponse) :
    List HttpRequest × Except JsError (Option JVal) :=
  match getAuthHeaders creds with
  | .error e => ([], .error e)
  | .ok headers =>
      let req : HttpRequest :=
        { method := opts.method, url := url, headers := headers, body := opts.body }
      ([req], handleResponse url (transport req))

/-- UTF-8 encoding of one character, for percent-encoding. -/
def utf8Bytes (c : Char) : List Nat :=
  let n := c.toNat
  if n < 0x80 then [n]
  else if n < 0x800 then [0xC0 + n / 64, 0x80 + n % 64]
  else if n < 0x10000 then [0xE0 + n / 4096, 0x80 + n / 64 % 64, 0x80 + n % 64]
  else [0xF0 + n / 262144, 0x80 + n / 4096 % 64, 0x80 + n / 64 % 64, 0x80 + n % 64]

/-- An uppercase hexadecimal digit. -/
def hexDigit (n : Nat) : Char := "0123456789ABCDEF".data.getD n '0'

/-- Percent-encoding of one byte, `%XX`. -/
def pctEncodeByte (b : Nat) : List Char := ['%', hexDigit (b / 16), hexDigit (b % 16)]

/-- The platform `encodeURIComponent`: alphanumerics and `-_.!~*'()` pass
through; every other character is percent-encoded byte-wise as UTF-8. -/
def encodeURIComponent (s : String) : String :=
  String.mk (s.data.flatMap fun c =>
    if c.isAlphanum || c ∈ ['-', '_', '.', '!', '~', '*', '\'', '(', ')'] then [c]
    else (utf8Bytes c).flatMap pctEncodeByte)

/-- The `URLSearchParams` value serialization (`application/x-www-form-urlencoded`):
alphanumerics and `*-._` pass through, space becomes `+`, the rest is
percent-encoded byte-wise as UTF-8. -/
def formUrlEncode (s : String) : String :=
  String.mk (s.data.flatMap fun c =>
    if c = ' ' then ['+']
    else if c.isAlphanum || c ∈ ['*', '-', '.', '_'] then [c]
    else (utf8Bytes c).flatMap pctEncodeByte)

namespace API_URLS

/-- Base URL `API_URLS.compute` (`src/client.ts`). -/
def compute : String := "https://compute.googleapis.com/compute/v1"

/-- Base URL `API_URLS.storage`. -/
def storage : String := "https://storage.googleapis.com/storage/v1"

/-- Base URL `API_URLS.functions`. -/
def functions : String := "https://cloudfunctions.googleapis.com/v2"

/-- Base URL `API_URLS.run`. -/
def run : String := "https://run.googleapis.com/v2"

/-- Base URL `API_URLS.bigquery`. -/
def bigquery : String := "https://bigquery.googleapis.com/bigquery/v2"

/-- Base URL `API_URLS.pubsub`. -/
def pubsub : String := "https://pubsub.googleapis.com/v1"

/-- Base URL `API_URLS.sql`. -/
def sql : String := "https://sqladmin.googleapis.com/sql/v1beta4"

/-- Base URL `API_URLS.iam`. -/
def iam : String := "https://iam.googleapis.com/v1"

/-- Base URL `API_URLS.secretmanager`. -/
def secretmanager : String := "https://secretmanager.googleapis.com/v1"

/-- Base URL `API_URLS.dns`. -/
def dns : String := "https://dns.googleapis.com/dns/v1"

/-- Base URL `API_URLS.container`. -/
def container : String := "https://container.googleapis.com/v1"

/-- Base URL `API_URLS.logging`. -/
def logging : String := "https://logging.googleapis.com/v2"

/-- The Cloud Resource Manager base, written inline in
`getProjectIamPolicy` / `setProjectIamPolicy` rather than in `API_URLS`. -/
def cloudresourcemanager : String := "https://cloudresourcemanager.googleapis.com/v1"

end API_URLS

/-- The provider services the client talks to, one per fixed base URL. -/
inductive Service where
  | compute | storage | functions | run | bigquery | pubsub | sql | iam
  | secretmanager | dns | container | logging | cloudresourcemanager
deriving DecidableEq, Repr

/-- The fixed base URL of each service, per the endpoint table documented at
the head of `src/client.ts`. -/
def serviceBaseUrl : Service → String
  | .compute => API_URLS.compute
  | .storage => API_URLS.storage
  | .functions => API_URLS.functions
  | .run => API_URLS.run
  | .bigquery => API_URLS.bigquery
  | .pubsub => API_URLS.pubsub
  | .sql => API_URLS.sql
  | .iam => API_URLS.iam
  | .secretmanager => API_URLS.secretmanager
  | .dns => API_URLS.dns
  | .container => API_URLS.container
  | .logging => API_URLS.logging
  | .cloudresourcemanager => API_URLS.cloudresourcemanager

/-- One invocation of a `GCloudClient` method, with its arguments.  Structured
request payloads (`CreateInstanceRequest`, policies, record sets, log
entries, ...) are carried as the `JVal` they serialize from. -/
inductive ClientOp where
  | testConnection (projectId : String)
  | listInstances (projectId zone : String)
  | getInstance (projectId zone instanceName : String)
  | createInstance (projectId zone : String) (inst : JVal)
  | deleteInstance (projectId zone instanceName : String)
  | startInstance (projectId zone instanceName : String)
  | stopInstance (projectId zone instanceName : String)
  | resetInstance (projectId zone instanceName : String)
  | listDisks (projectId zone : String)
  | getDisk (projectId zone diskName : String)
  | createDisk (projectId zone : String) (disk : JVal)
  | deleteDisk (projectId zone diskName : String)
  | resizeDisk (projectId zone diskName sizeGb : String)
  | listNetworks (projectId : String)
  | getNetwork (projectId networkName : String)
  | createNetwork (projectId : String) (network : JVal)
  | deleteNetwork (projectId networkName : String)
  | listFirewalls (projectId : String)
  | getFirewall (projectId firewallName : String)
  | createFirewall (projectId : String) (firewall : JVal)
  | deleteFirewall (projectId firewallName : String)
  | listBuckets (projectId : String)
  | getBucket (bucketName : String)
  | createBucket (projectId : String) (bucket : JVal)
  | deleteBucket (bucketName : String)
  | listObjects (bucketName : String) (pfx : Option String) (maxResults : Option Int)
  | getObject (bucketName objectName : String)
  | deleteObject (bucketName objectName : String)
  | copyObject (sourceBucket sourceObject destBucket destObject : String)
  | listFunctions (projectId location : String)
  | getFunction (projectId location functionName : String)
  | deleteFunction (projectId location functionName : String)
  | listCloudRunServices (projectId location : String)
  | getCloudRunService (projectId location serviceName : String)
  | deleteCloudRunService (projectId location serviceName : String)
  | listDatasets (projectId : String)
  | getDataset (projectId datasetId : String)
  | createDataset (projectId : String) (dataset : JVal)
  | deleteDataset (projectId datasetId : String) (deleteContents : Bool)
  | listTables (projectId datasetId : String)
  | getTable (projectId datasetId tableId : String)
  | runQuery (projectId query : String) (useLegacySql : Bool)
  | listTopics (projectId : String)
  | getTopic (projectId topicName : String)
  | createTopic (projectId topicName : String)
  | deleteTopic (projectId topicName : String)
  | publishMessage (projectId topicName : String) (messages : List JVal)
  | listSubscriptions (projectId : String)
  | getSubscription (projectId subscriptionName : String)
  | createSubscription (projectId subscriptionName topicName : String)
  | deleteSubscription (projectId subscriptionName : String)
  | pullMessages (projectId subscriptionName : String) (maxMessages : Int)
  | acknowledgeMessages (projectId subscriptionName : String) (ackIds : List String)
  | listSqlInstances (projectId : String)
  | getSqlInstance (projectId instanceName : String)
  | deleteSqlInstance (projectId instanceName : String)
  | restartSqlInstance (projectId instanceName : String)
  | listDatabases (projectId instanceName : String)
  | getDatabase (projectId instanceName databaseName : String)
  | createDatabase (projectId instanceName databaseName : String)
  | deleteDatabase (projectId instanceName databaseName : String)
  | listServiceAccounts (projectId : String)
  | getServiceAccount (projectId email : String)
  | createServiceAccount (projectId accountId : String) (displayName : Option String)
  | deleteServiceAccount (projectId email : String)
  | getProjectIamPolicy (projectId : String)
  | setProjectIamPolicy (projectId : String) (policy : JVal)
  | listRoles (projectId : Option String)
  | listSecrets (projectId : String)
  | getSecret (projectId secretName : String)
  | createSecret (projectId secretId : String) (replication : Option JVal)
  | deleteSecret (projectId secretName : String)
  | listSecretVersions (projectId secretName : String)
  | accessSecretVersion (projectId secretName version : String)
  | addSecretVersion (projectId secretName payload : String)
  | listManagedZones (projectId : String)
  | getManagedZone (projectId zoneName : String)
  | createManagedZone (projectId : String) (zone : JVal)
  | deleteManagedZone (projectId zoneName : String)
  | listResourceRecordSets (projectId zoneName : String)
  | createResourceRecordSet (projectId zoneName : String) (rrset : JVal)
  | deleteResourceRecordSet (projectId zoneName name recordType : String)
  | listClusters (projectId location : String)
  | getCluster (projectId location clusterName : String)
  | deleteCluster (projectId location clusterName : String)
  | listNodePools (projectId location clusterName : String)
  | getNodePool (projectId location clusterName nodePoolName : String)
  | listLogEntries (projectId : String) (filter : Option String) (pageSize : Int)
  | writeLogEntries (projectId logName : String) (entries : List JVal)
  | listLogs (projectId : String)

/-- The URL each client method passes to `request`, transcribed from the
template literals of `src/client.ts` (`++` associates to the right, so each
URL is the service base followed by the interpolated path). -/
def opUrl : ClientOp → String
  | .testConnection p => API_URLS.compute ++ "/projects/" ++ p
  | .listInstances p z => API_URLS.compute ++ "/projects/" ++ p ++ "/zones/" ++ z ++ "/instances"
  | .getInstance p z n =>
      API_URLS.compute ++ "/projects/" ++ p ++ "/zones/" ++ z ++ "/instances/" ++ n
  | .createInstance p z _ => API_URLS.compute ++ "/projects/" ++ p ++ "/zones/" ++ z ++ "/instances"
  | .deleteInstance p z n =>
      API_URLS.compute ++ "/projects/" ++ p ++ "/zones/" ++ z ++ "/instances/" ++ n
  | .startInstance p z n =>
      API_URLS.compute ++ "/projects/" ++ p ++ "/zones/" ++ z ++ "/instances/" ++ n ++ "/start"
  | .stopInstance p z n =>
      API_URLS.compute ++ "/projects/" ++ p ++ "/zones/" ++ z ++ "/instances/" ++ n ++ "/stop"
  | .resetInstance p z n =>
      API_URLS.compute ++ "/projects/" ++ p ++ "/zones/" ++ z ++ "/instances/" ++ n ++ "/reset"
  | .listDisks p z => API_URLS.compute ++ "/projects/" ++ p ++ "/zones/" ++ z ++ "/disks"
  | .getDisk p z d => API_URLS.compute ++ "/projects/" ++ p ++ "/zones/" ++ z ++ "/disks/" ++ d
  | .createDisk p z _ => API_URLS.compute ++ "/projects/" ++ p ++ "/zones/" ++ z ++ "/disks"
  | .deleteDisk p z d => API_URLS.compute ++ "/projects/" ++ p ++ "/zones/" ++ z ++ "/disks/" ++ d
  | .resizeDisk p z d _ =>
      API_URLS.compute ++ "/projects/" ++ p ++ "/zones/" ++ z ++ "/disks/" ++ d ++ "/resize"
  | .listNetworks p => API_URLS.compute ++ "/projects/" ++ p ++ "/global/networks"
  | .getNetwork p n => API_URLS.compute ++ "/projects/" ++ p ++ "/global/networks/" ++ n
  | .createNetwork p _ => API_URLS.compute ++ "/projects/" ++ p ++ "/global/networks"
  | .deleteNetwork p n => API_URLS.compute ++ "/projects/" ++ p ++ "/global/networks/" ++ n
  | .listFirewalls p => API_URLS.compute ++ "/projects/" ++ p ++ "/global/firewalls"
  | .getFirewall p n => API_URLS.compute ++ "/projects/" ++ p ++ "/global/firewalls/" ++ n
  | .createFirewall p _ => API_URLS.compute ++ "/projects/" ++ p ++ "/global/firewalls"
  | .deleteFirewall p n => API_URLS.compute ++ "/projects/" ++ p ++ "/global/firewalls/" ++ n
  | .listBuckets p => API_URLS.storage ++ "/b?project=" ++ p
  | .getBucket b => API_URLS.storage ++ "/b/" ++ b
  | .createBucket p _ => API_URLS.storage ++ "/b?project=" ++ p
  | .deleteBucket b => API_URLS.storage ++ "/b/" ++ b
  | .listObjects b pfx maxResults =>
      -- `new URLSearchParams()` with `prefix`/`maxResults` set when truthy
      let params :=
        (match pfx with
          | some s => if s = "" then [] else ["prefix=" ++ formUrlEncode s]
          | none => []) ++
        (match maxResults with
          | some n => if n = 0 then [] else ["maxResults=" ++ formUrlEncode (toString n)]
          | none => [])
      let query := String.intercalate "&" params
      API_URLS.storage ++ "/b/" ++ b ++ "/o" ++ (if query = "" then "" else "?" ++ query)
  | .getObject b o => API_URLS.storage ++ "/b/" ++ b ++ "/o/" ++ encodeURIComponent o
  | .deleteObject b o => API_URLS.storage ++ "/b/" ++ b ++ "/o/" ++ encodeURIComponent o
  | .copyObject sb so db dobj =>
      API_URLS.storage ++ "/b/" ++ sb ++ "/o/" ++ encodeURIComponent so ++ "/copyTo/b/" ++ db ++
        "/o/" ++ encodeURIComponent dobj
  | .listFunctions p l =>
      API_URLS.functions ++ "/projects/" ++ p ++ "/locations/" ++ l ++ "/functions"
  | .getFunction p l n =>
      API_URLS.functions ++ "/projects/" ++ p ++ "/locations/" ++ l ++ "/functions/" ++ n
  | .deleteFunction p l n =>
      API_URLS.functions ++ "/projects/" ++ p ++ "/locations/" ++ l ++ "/functions/" ++ n
  | .listCloudRunServices p l =>
      API_URLS.run ++ "/projects/" ++ p ++ "/locations/" ++ l ++ "/services"
  | .getCloudRunService p l n =>
      API_URLS.run ++ "/projects/" ++ p ++ "/locations/" ++ l ++ "/services/" ++ n
  | .deleteCloudRunService p l n =>
      API_URLS.run ++ "/projects/" ++ p ++ "/locations/" ++ l ++ "/services/" ++ n
  | .listDatasets p => API_URLS.bigquery ++ "/projects/" ++ p ++ "/datasets"
  | .getDataset p d => API_URLS.bigquery ++ "/projects/" ++ p ++ "/datasets/" ++ d
  | .createDataset p _ => API_URLS.bigquery ++ "/projects/" ++ p ++ "/datasets"
  | .deleteDataset p d dc =>
      API_URLS.bigquery ++ "/projects/" ++ p ++ "/datasets/" ++ d ++ "?deleteContents=" ++
        (if dc then "true" else "false")
  | .listTables p d => API_URLS.bigquery ++ "/projects/" ++ p ++ "/datasets/" ++ d ++ "/tables"
  | .getTable p d t =>
      API_URLS.bigquery ++ "/projects/" ++ p ++ "/datasets/" ++ d ++ "/tables/" ++ t
  | .runQuery p _ _ => API_URLS.bigquery ++ "/projects/" ++ p ++ "/queries"
  | .listTopics p => API_URLS.pubsub ++ "/projects/" ++ p ++ "/topics"
  | .getTopic p t => API_URLS.pubsub ++ "/projects/" ++ p ++ "/topics/" ++ t
  | .createTopic p t => API_URLS.pubsub ++ "/projects/" ++ p ++ "/topics/" ++ t
  | .deleteTopic p t => API_URLS.pubsub ++ "/projects/" ++ p ++ "/topics/" ++ t
  | .publishMessage p t _ => API_URLS.pubsub ++ "/projects/" ++ p ++ "/topics/" ++ t ++ ":publish"
  | .listSubscriptions p => API_URLS.pubsub ++ "/projects/" ++ p ++ "/subscriptions"
  | .getSubscription p s => API_URLS.pubsub ++ "/projects/" ++ p ++ "/subscriptions/" ++ s
  | .createSubscription p s _ => API_URLS.pubsub ++ "/projects/" ++ p ++ "/subscriptions/" ++ s
  | .deleteSubscription p s => API_URLS.pubsub ++ "/projects/" ++ p ++ "/subscriptions/" ++ s
  | .pullMessages p s _ =>
      API_URLS.pubsub ++ "/projects/" ++ p ++ "/subscriptions/" ++ s ++ ":pull"
  | .acknowledgeMessages p s _ =>
      API_URLS.pubsub ++ "/projects/" ++ p ++ "/subscriptions/" ++ s ++ ":acknowledge"
  | .listSqlInstances p => API_URLS.sql ++ "/projects/" ++ p ++ "/instances"
  | .getSqlInstance p i => API_URLS.sql ++ "/projects/" ++ p ++ "/instances/" ++ i
  | .deleteSqlInstance p i => API_URLS.sql ++ "/projects/" ++ p ++ "/instances/" ++ i
  | .restartSqlInstance p i => API_URLS.sql ++ "/projects/" ++ p ++ "/instances/" ++ i ++ "/restart"
  | .listDatabases p i => API_URLS.sql ++ "/projects/" ++ p ++ "/instances/" ++ i ++ "/databases"
  | .getDatabase p i d =>
      API_URLS.sql ++ "/projects/" ++ p ++ "/instances/" ++ i ++ "/databases/" ++ d
  | .createDatabase p i _ => API_URLS.sql ++ "/projects/" ++ p ++ "/instances/" ++ i ++ "/databases"
  | .deleteDatabase p i d =>
      API_URLS.sql ++ "/projects/" ++ p ++ "/instances/" ++ i ++ "/databases/" ++ d
  | .listServiceAccounts p => API_URLS.iam ++ "/projects/" ++ p ++ "/serviceAccounts"
  | .getServiceAccount p e => API_URLS.iam ++ "/projects/" ++ p ++ "/serviceAccounts/" ++ e
  | .createServiceAccount p _ _ => API_URLS.iam ++ "/projects/" ++ p ++ "/serviceAccounts"
  | .deleteServiceAccount p e => API_URLS.iam ++ "/projects/" ++ p ++ "/serviceAccounts/" ++ e
  | .getProjectIamPolicy p =>
      -- written inline in the source as `https://cloudresourcemanager.googleapis.com/v1/...`
      API_URLS.cloudresourcemanager ++ "/projects/" ++ p ++ ":getIamPolicy"
  | .setProjectIamPolicy p _ =>
      API_URLS.cloudresourcemanager ++ "/projects/" ++ p ++ ":setIamPolicy"
  | .listRoles po =>
      match po with
      | some p => API_URLS.iam ++ "/projects/" ++ p ++ "/roles"
      | none => API_URLS.iam ++ "/roles"
  | .listSecrets p => API_URLS.secretmanager ++ "/projects/" ++ p ++ "/secrets"
  | .getSecret p s => API_URLS.secretmanager ++ "/projects/" ++ p ++ "/secrets/" ++ s
  | .createSecret p sid _ =>
      API_URLS.secretmanager ++ "/projects/" ++ p ++ "/secrets?secretId=" ++ sid
  | .deleteSecret p s => API_URLS.secretmanager ++ "/projects/" ++ p ++ "/secrets/" ++ s
  | .listSecretVersions p s =>
      API_URLS.secretmanager ++ "/projects/" ++ p ++ "/secrets/" ++ s ++ "/versions"
  | .accessSecretVersion p s v =>
      API_URLS.secretmanager ++ "/projects/" ++ p ++ "/secrets/" ++ s ++ "/versions/" ++ v ++
        ":access"
  | .addSecretVersion p s _ =>
      API_URLS.secretmanager ++ "/projects/" ++ p ++ "/secrets/" ++ s ++ ":addVersion"
  | .listManagedZones p => API_URLS.dns ++ "/projects/" ++ p ++ "/managedZones"
  | .getManagedZone p z => API_URLS.dns ++ "/projects/" ++ p ++ "/managedZones/" ++ z
  | .createManagedZone p _ => API_URLS.dns ++ "/projects/" ++ p ++ "/managedZones"
  | .deleteManagedZone p z => API_URLS.dns ++ "/projects/" ++ p ++ "/managedZones/" ++ z
  | .listResourceRecordSets p z =>
      API_URLS.dns ++ "/projects/" ++ p ++ "/managedZones/" ++ z ++ "/rrsets"
  | .createResourceRecordSet p z _ =>
      API_URLS.dns ++ "/projects/" ++ p ++ "/managedZones/" ++ z ++ "/rrsets"
  | .deleteResourceRecordSet p z n rt =>
      API_URLS.dns ++ "/projects/" ++ p ++ "/managedZones/" ++ z ++ "/rrsets/" ++ n ++ "/" ++ rt
  | .listClusters p l => API_URLS.container ++ "/projects/" ++ p ++ "/locations/" ++ l ++ "/clusters"
  | .getCluster p l c =>
      API_URLS.container ++ "/projects/" ++ p ++ "/locations/" ++ l ++ "/clusters/" ++ c
  | .deleteCluster p l c =>
      API_URLS.container ++ "/projects/" ++ p ++ "/locations/" ++ l ++ "/clusters/" ++ c
  | .listNodePools p l c =>
      API_URLS.container ++ "/projects/" ++ p ++ "/locations/" ++ l ++ "/clusters/" ++ c ++
        "/nodePools"
  | .getNodePool p l c np =>
      API_URLS.container ++ "/projects/" ++ p ++ "/locations/" ++ l ++ "/clusters/" ++ c ++
        "/nodePools/" ++ np
  | .listLogEntries _ _ _ => API_URLS.logging ++ "/entries:list"
  | .writeLogEntries _ _ _ => API_URLS.logging ++ "/entries:write"
  | .listLogs p => API_URLS.logging ++ "/projects/" ++ p ++ "/logs"

/-- The HTTP method each client method uses (`fetch` defaults to GET when no
`method` option is passed). -/
def opMethod : ClientOp → String
  | .createInstance .. | .startInstance .. | .stopInstance .. | .resetInstance ..
  | .createDisk .. | .resizeDisk .. | .createNetwork .. | .createFirewall ..
  | .createBucket .. | .copyObject .. | .createDataset .. | .runQuery ..
  | .publishMessage .. | .pullMessages .. | .acknowledgeMessages ..
  | .restartSqlInstance .. | .createDatabase .. | .createServiceAccount ..
  | .getProjectIamPolicy .. | .setProjectIamPolicy .. | .createSecret ..
  | .addSecretVersion .. | .createManagedZone .. | .createResourceRecordSet ..
  | .listLogEntries .. | .writeLogEntries .. => "POST"
  | .createTopic .. | .createSubscription .. => "PUT"
  | .deleteInstance .. | .deleteDisk .. | .deleteNetwork .. | .deleteFirewall ..
  | .deleteBucket .. | .deleteObject .. | .deleteFunction .. | .deleteCloudRunService ..
  | .deleteDataset .. | .deleteTopic .. | .deleteSubscription .. | .deleteSqlInstance ..
  | .deleteDatabase .. | .deleteServiceAccount .. | .deleteSecret ..
  | .deleteManagedZone .. | .deleteResourceRecordSet .. | .deleteCluster .. => "DELETE"
  | _ => "GET"

/-- The serialized request body each client method passes to `request`
(`JSON.stringify` of the documented payload).  `addSecretVersion` applies
`btoa` to its payload and can therefore throw before the fetch. -/
def opBody : ClientOp → Except JsError (Option String)
  | .createInstance _ _ inst => .ok (some (jsonStringify inst))
  | .createDisk _ _ d => .ok (some (jsonStringify d))
  | .resizeDisk _ _ _ sizeGb => .ok (some (jsonStringify (.jobj [("sizeGb", .jstr sizeGb)])))
  | .createNetwork _ n => .ok (some (jsonStringify n))
  | .createFirewall _ f => .ok (some (jsonStringify f))
  | .createBucket _ b => .ok (some (jsonStringify b))
  | .createDataset _ d => .ok (some (jsonStringify d))
  | .runQuery _ q legacy =>
      .ok (some (jsonStringify (.jobj [("query", .jstr q), ("useLegacySql", .jbool legacy)])))
  | .publishMessage _ _ msgs => .ok (some (jsonStringify (.jobj [("messages", .jarr msgs)])))
  | .createSubscription p _ t =>
      .ok (some (jsonStringify (.jobj
        [("topic", .jstr ("projects/" ++ p ++ "/topics/" ++ t))])))
  | .pullMessages _ _ m => .ok (some (jsonStringify (.jobj [("maxMessages", .jint m)])))
  | .acknowledgeMessages _ _ ids =>
      .ok (some (jsonStringify (.jobj [("ackIds", .jarr (ids.map JVal.jstr))])))
  | .createDatabase _ _ d => .ok (some (jsonStringify (.jobj [("name", .jstr d)])))
  | .createServiceAccount _ aid dn =>
      .ok (some (jsonStringify (.jobj
        [("accountId", .jstr aid),
         ("serviceAccount", .jobj
           [("displayName", match dn with | some s => .jstr s | none => .jundefined)])])))
  | .getProjectIamPolicy _ => .ok (some (jsonStringify (.jobj [])))
  | .setProjectIamPolicy _ pol => .ok (some (jsonStringify (.jobj [("policy", pol)])))
  | .createSecret _ _ repl =>
      .ok (some (jsonStringify (.jobj
        [("replication", match repl with
          | some r => r
          | none => .jobj [("automatic", .jobj [])])])))
  | .addSecretVersion _ _ payload =>
      match btoa payload with
      | some d =>
          .ok (some (jsonStringify (.jobj [("payload", .jobj [("data", .jstr d)])])))
      | none => .error invalidCharacterErr
  | .createManagedZone _ z => .ok (some (jsonStringify z))
  | .createResourceRecordSet _ _ r => .ok (some (jsonStringify r))
  | .listLogEntries p filter pageSize =>
      .ok (some (jsonStringify (.jobj
        [("resourceNames", .jarr [.jstr ("projects/" ++ p)]),
         ("filter", match filter with | some f => .jstr f | none => .jundefined),
         ("pageSize", .jint pageSize),
         ("orderBy", .jstr "timestamp desc")])))
  | .writeLogEntries p ln entries =>
      .ok (some (jsonStringify (.jobj
        [("logName", .jstr ("projects/" ++ p ++ "/logs/" ++ encodeURIComponent ln)),
         ("resource", .jobj [("type", .jstr "global")]),
         ("entries", .jarr entries)])))
  | _ => .ok none

/-- The service whose endpoint each client method addresses, assigned per the
base-URL table documented at the head of `src/client.ts` (IAM policy methods
address Cloud Resource Manager). -/
def serviceOf : ClientOp → Service
  | .testConnection .. | .listInstances .. | .getInstance .. | .createInstance ..
  | .deleteInstance .. | .startInstance .. | .stopInstance .. | .resetInstance ..
  | .listDisks .. | .getDisk .. | .createDisk .. | .deleteDisk .. | .resizeDisk ..
  | .listNetworks .. | .getNetwork .. | .createNetwork .. | .deleteNetwork ..
  | .listFirewalls .. | .getFirewall .. | .createFirewall .. | .deleteFirewall .. => .compute
  | .listBuckets .. | .getBucket .. | .createBucket .. | .deleteBucket ..
  | .listObjects .. | .getObject .. | .deleteObject .. | .copyObject .. => .storage
  | .listFunctions .. | .getFunction .. | .deleteFunction .. => .functions
  | .listCloudRunServices .. | .getCloudRunService .. | .deleteCloudRunService .. => .run
  | .listDatasets .. | .getDataset .. | .createDataset .. | .deleteDataset ..
  | .listTables .. | .getTable .. | .runQuery .. => .bigquery
  | .listTopics .. | .getTopic .. | .createTopic .. | .deleteTopic .. | .publishMessage ..
  | .listSubscriptions .. | .getSubscription .. | .createSubscription ..
  | .deleteSubscription .. | .pullMessages .. | .acknowledgeMessages .. => .pubsub
  | .listSqlInstances .. | .getSqlInstance .. | .deleteSqlInstance ..
  | .restartSqlInstance .. | .listDatabases .. | .getDatabase .. | .createDatabase ..
  | .deleteDatabase .. => .sql
  | .listServiceAccounts .. | .getServiceAccount .. | .createServiceAccount ..
  | .deleteServiceAccount .. | .listRoles .. => .iam
  | .getProjectIamPolicy .. | .setProjectIamPolicy .. => .cloudresourcemanager
  | .listSecrets .. | .getSecret .. | .createSecret .. | .deleteSecret ..
  | .listSecretVersions .. | .accessSecretVersion .. | .addSecretVersion .. => .secretmanager
  | .listManagedZones .. | .getManagedZone .. | .createManagedZone ..
  | .deleteManagedZone .. | .listResourceRecordSets .. | .createResourceRecordSet ..
  | .deleteResourceRecordSet .. => .dns
  | .listClusters .. | .getCluster .. | .deleteCluster .. | .listNodePools ..
  | .getNodePool .. => .container
  | .listLogEntries .. | .writeLogEntries .. | .listLogs .. => .logging

/-- Runs one client method against a transport: serialize the body (only
`addSecretVersion` can throw there), then make the single `request` call. -/
def clientCall (creds : TenantCredentials) (op : ClientOp)
    (transport : HttpRequest → HttpResponse) :
    List HttpRequest × Except JsError (Option JVal) :=
  match opBody op with
  | .error e => ([], .error e)
  | .ok b => request creds (opUrl op) { method := opMethod op, body := b } transport

/-- The embedded MCP tool invocations (with their already-validated
arguments): `gcloud_list_buckets` (`src/tools/storage.ts`), `gcloud_get_topic`,
`gcloud_publish_message` and `gcloud_pull_messages` (`src/tools/pubsub.ts`),
and `gcloud_set_project_iam_policy` (`src/tools/iam.ts`).  The first four
handlers make one client call inside `try` (`formatResponse` on success,
`formatError` on catch); `gcloud_set_project_iam_policy` is the exception
among the registered handlers: it makes two dependent client calls — a
policy get, then a set whose body embeds the `version` and `etag` of the
get's response.  The `bindings` argument is carried as the parsed JSON
values the handler passes through opaquely. -/
inductive ToolCall where
  | listBuckets (projectId : String)
  | getTopic (projectId topicName : String)
  | publishMessage (projectId topicName data : String)
      (attributes : Option (List (String × String)))
  | pullMessages (projectId subscriptionName : String) (maxMessages : Int)
  | setProjectIamPolicy (projectId : String) (bindings : List JVal)

/-- The per-message mapping of the `gcloud_pull_messages` handler: flatten
`{ ackId, message: {...} }` to `{ ackId, messageId, data, attributes,
publishTime }`, base64-decoding a truthy `data` field with `atob` (which can
throw) and leaving a falsy one `undefined`. -/
def decodeReceivedMessage (rm : JVal) : Except JsError JVal := do
  let m := jsIndex rm "message"
  let dv := jsIndex m "data"
  let dataField ←
    if jsTruthy dv then
      match atob (jsCoerceString dv) with
      | some s => pure (JVal.jstr s)
      | none => throw invalidCharacterErr
    else
      pure JVal.jundefined
  pure (JVal.jobj
    [("ackId", jsIndex rm "ackId"),
     ("messageId", jsIndex m "messageId"),
     ("data", dataField),
     ("attributes", jsIndex m "attributes"),
     ("publishTime", jsIndex m "publishTime")])

/-- The mapping `(result.receivedMessages || []).map(decode)`; a non-array value would
make `.map` throw a `TypeError`. -/
def decodeReceivedMessages : JVal → Except JsError (List JVal)
  | .jarr xs => xs.mapM decodeReceivedMessage
  | _ => throw { name := "TypeError", message := "receivedMessages.map is not a function" }

/-- Runs one embedded tool handler: the trace of transport calls made and the
MCP envelope returned.  Transcribed from the handlers in
`src/tools/storage.ts`, `src/tools/pubsub.ts` and `src/tools/iam.ts`; the
`.ok none` branches are the `TypeError`s a (never-occurring in practice) 204
response would cause when the handler reads a property of `undefined`
(where the handler only embeds the `undefined` value itself, the field is
carried and later omitted by `JSON.stringify`). -/
def runTool (t : ToolCall) (creds : TenantCredentials)
    (transport : HttpRequest → HttpResponse) : List HttpRequest × Envelope :=
  match t with
  | .listBuckets p =>
      let (tr, r) := clientCall creds (.listBuckets p) transport
      (tr, match r with
        | .error e => formatError e
        | .ok none => formatError (typeErrorRead "items")
        | .ok (some v) =>
            formatResponse (jsOr (jsIndex v "items") (.jarr [])) .json (some "buckets"))
  | .getTopic p tn =>
      let (tr, r) := clientCall creds (.getTopic p tn) transport
      (tr, match r with
        | .error e => formatError e
        | .ok none => formatResponse .jundefined .json (some "topic")
        | .ok (some v) => formatResponse v .json (some "topic"))
  | .publishMessage p tn data attrs =>
      match btoa data with
      | none => ([], formatError invalidCharacterErr)
      | some enc =>
          let msg : JVal := .jobj
            [("data", .jstr enc),
             ("attributes", match attrs with
               | some attrList => .jobj (attrList.map fun kv => (kv.1, JVal.jstr kv.2))
               | none => .jundefined)]
          let (tr, r) := clientCall creds (.publishMessage p tn [msg]) transport
          (tr, match r with
            | .error e => formatError e
            | .ok none => formatError (typeErrorRead "messageIds")
            | .ok (some v) =>
                formatResponse (.jobj
                  [("success", .jbool true),
                   ("message", .jstr "Message published"),
                   ("messageIds", jsIndex v "messageIds")]) .json none)
  | .pullMessages p sn maxM =>
      let (tr, r) := clientCall creds (.pullMessages p sn maxM) transport
      (tr, match r with
        | .error e => formatError e
        | .ok none => formatError (typeErrorRead "receivedMessages")
        | .ok (some v) =>
            match decodeReceivedMessages (jsOr (jsIndex v "receivedMessages") (.jarr [])) with
            | .error e => formatError e
            | .ok msgs => formatResponse (.jarr msgs) .json (some "messages"))
  | .setProjectIamPolicy p bindings =>
      -- get the current policy first to preserve its etag, then set
      let (tr1, r1) := clientCall creds (.getProjectIamPolicy p) transport
      match r1 with
      | .error e => (tr1, formatError e)
      | .ok none => (tr1, formatError (typeErrorRead "version"))
      | .ok (some currentPolicy) =>
          let pol : JVal := .jobj
            [("version", jsIndex currentPolicy "version"),
             ("bindings", .jarr bindings),
             ("etag", jsIndex currentPolicy "etag")]
          let (tr2, r2) := clientCall creds (.setProjectIamPolicy p pol) transport
          (tr1 ++ tr2, match r2 with
            | .error e => formatError e
            | .ok none =>
                formatResponse (.jobj
                  [("success", .jbool true),
                   ("message", .jstr "IAM policy updated"),
                   ("policy", .jundefined)]) .json none
            | .ok (some v) =>
                formatResponse (.jobj
                  [("success", .jbool true),
                   ("message", .jstr "IAM policy updated"),
                   ("policy", v)]) .json none)

/-- The spec's five coarse error kinds. -/
inductive ErrKind where
  | rateLimited
  | unauthenticated
  | permissionDenied
  | notFound
  | apiError
deriving DecidableEq, Repr

/-- Claim-side classifier, written from the claim's words: 429 is the
rate-limit kind, 401 authentication, 403 permission-denied, 404 not-found,
any other non-2xx status the generic kind, and a 2xx status no error. -/
def claimedKindOf (status : Nat) : Option ErrKind :=
  if status = 429 then some .rateLimited
  else if status = 401 then some .unauthenticated
  else if status = 403 then some .permissionDenied
  else if status = 404 then some .notFound
  else if 200 ≤ status ∧ status ≤ 299 then none
  else some .apiError

/-- The taxonomy kind of a thrown error, recognized by its class name
(`none` for non-taxonomy errors such as a JSON `SyntaxError`). -/
def kindOfError (e : JsError) : Option ErrKind :=
  if e.name = "RateLimitError" then some .rateLimited
  else if e.name = "AuthenticationError" then some .unauthenticated
  else if e.name = "PermissionDeniedError" then some .permissionDenied
  else if e.name = "NotFoundError" then some .notFound
  else if e.name = "GCloudApiError" then some .apiError
  else none

/-- The taxonomy kind raised by a request outcome (`none` when no taxonomy
error was raised). -/
def resultKind : Except JsError (Option JVal) → Option ErrKind
  | .ok _ => none
  | .error e => kindOfError e

/-- C1: for every received HTTP response (whose body, on a 2xx status other
than 204, is JSON — otherwise `response.json()` raises a parse error that is
not part of the status taxonomy), the client maps the status to exactly the
claimed coarse error kind: 429 rate-limit, 401 authentication, 403
permission-denied, 404 not-found, other non-2xx the generic API error
carrying that status code, and 2xx no error. -/
theorem c1_status_to_error_kind (url : String) (resp : HttpResponse)
    (hbody : 200 ≤ resp.status ∧ resp.status ≤ 299 →
      resp.status = 204 ∨ ∃ v, resp.body = RespBody.json v) :
    resultKind (handleResponse url resp) = claimedKindOf resp.status ∧
    (claimedKindOf resp.status = some ErrKind.apiError →
      handleResponse url resp =
        .error (GCloudApiError (extractErrorMessage resp.body resp.status) resp.status)) := by
  constructor
  · unfold handleResponse
    split_ifs with h429 h401 h403 h404 hng h204
    · simp [resultKind, kindOfError, RateLimitError, claimedKindOf, h429]
    · simp [resultKind, kindOfError, AuthenticationError, claimedKindOf, h429, h401]
    · simp [resultKind, kindOfError, PermissionDeniedError, claimedKindOf, h429, h401, h403]
    · simp [resultKind, kindOfError, NotFoundError, claimedKindOf, h429, h401, h403, h404]
    · simp [resultKind, claimedKindOf, h429, h401, h403, h404, hng]
    · rcases hbody hng with h | ⟨v, hv⟩
      · exact absurd h h204
      · rw [hv]
        simp [resultKind, claimedKindOf, h429, h401, h403, h404, hng]
    · simp [resultKind, kindOfError, GCloudApiError, claimedKindOf, h429, h401, h403, h404, hng]
  · intro hk
    unfold claimedKindOf at hk
    split_ifs at hk with h429 h401 h403 h404 h2xx
    · simp at hk
    · simp at hk
    · simp at hk
    · simp at hk
    · unfold handleResponse
      rw [if_neg h429, if_neg h401, if_neg h403, if_neg h404, if_pos h2xx]

/-- Witness for C1 at a concrete 500 response with a non-JSON body. -/
theorem c1_status_to_error_kind_witness :
    resultKind (handleResponse "u" ⟨500, none, .text "oops"⟩) = claimedKindOf 500 ∧
    (claimedKindOf 500 = some ErrKind.apiError →
      handleResponse "u" ⟨500, none, .text "oops"⟩ =
        .error (GCloudApiError (extractErrorMessage (.text "oops") 500) 500)) :=
  c1_status_to_error_kind "u" ⟨500, none, .text "oops"⟩
    (fun hx => absurd hx (by decide))

/-- Shape of `request`: with a falsy token it makes no transport call and
raises the authentication error; otherwise it makes exactly one call, carrying
the bearer token, and classifies that call's response. -/
theorem request_shape (creds : TenantCredentials) (url : String) (opts : RequestOptions)
    (transport : HttpRequest → HttpResponse) :
    (tokenPresent creds = false ∧
      request creds url opts transport =
        ([], .error (AuthenticationError
          "No access token provided. Include X-GCloud-Access-Token header."))) ∨
    (∃ tok, creds.accessToken = some tok ∧ tok ≠ "" ∧
      request creds url opts transport =
        ([{ method := opts.method, url := url,
            headers := [("Authorization", "Bearer " ++ tok),
              ("Content-Type", "application/json")],
            body := opts.body }],
          handleResponse url (transport
            { method := opts.method, url := url,
              headers := [("Authorization", "Bearer " ++ tok),
                ("Content-Type", "application/json")],
              body := opts.body }))) := by
  rcases creds with ⟨tok, pid⟩
  cases tok with
  | none => exact Or.inl ⟨rfl, rfl⟩
  | some s =>
      by_cases hs : s = ""
      · subst hs
        exact Or.inl ⟨rfl, rfl⟩
      · refine Or.inr ⟨s, rfl, hs, ?_⟩
        have hA : getAuthHeaders ⟨some s, pid⟩ =
            .ok [("Authorization", "Bearer " ++ s), ("Content-Type", "application/json")] := by
          simp [getAuthHeaders, hs]
        simp [request, hA]

/-- The request trace of `request` does not depend on the transport's
responses: it is the single request (or nothing, with a falsy token). -/
theorem request_fst (creds : TenantCredentials) (url : String) (opts : RequestOptions)
    (transport : HttpRequest → HttpResponse) :
    (request creds url opts transport).1 =
      match getAuthHeaders creds with
      | .error _ => []
      | .ok headers =>
          [{ method := opts.method, url := url, headers := headers, body := opts.body }] := by
  unfold request
  rcases hA : getAuthHeaders creds with e | headers <;> simp [hA]

/-- The request trace of a client call, independent of the transport. -/
theorem clientCall_fst (creds : TenantCredentials) (op : ClientOp)
    (transport : HttpRequest → HttpResponse) :
    (clientCall creds op transport).1 =
      match opBody op with
      | .error _ => []
      | .ok b =>
          match getAuthHeaders creds with
          | .error _ => []
          | .ok headers =>
              [{ method := opMethod op, url := opUrl op, headers := headers, body := b }] := by
  unfold clientCall
  rcases hb : opBody op with e | b
  · rfl
  · simp only [request_fst]

/-- With a truthy token, a client call is exactly one bearer-authenticated
request to the operation's URL, classified by `handleResponse`. -/
theorem clientCall_with_token (creds : TenantCredentials) (op : ClientOp) (b : Option String)
    (hb : opBody op = .ok b) (tok : String) (htk : creds.accessToken = some tok)
    (hne : tok ≠ "") (transport : HttpRequest → HttpResponse) :
    clientCall creds op transport =
      ([{ method := opMethod op, url := opUrl op,
          headers := [("Authorization", "Bearer " ++ tok), ("Content-Type", "application/json")],
          body := b }],
        handleResponse (opUrl op) (transport
          { method := opMethod op, url := opUrl op,
            headers := [("Authorization", "Bearer " ++ tok),
              ("Content-Type", "application/json")],
            body := b })) := by
  have hcc : clientCall creds op transport =
      request creds (opUrl op) { method := opMethod op, body := b } transport := by
    unfold clientCall
    rw [hb]
  rw [hcc]
  rcases request_shape creds (opUrl op) { method := opMethod op, body := b } transport with
    ⟨hf, he⟩ | ⟨tok2, htk2, hne2, he⟩
  · exfalso
    unfold tokenPresent at hf
    rw [htk] at hf
    simp at hf
    exact hne hf
  · rw [htk] at htk2
    cases htk2
    exact he

/-- C2 counterexample: a 401 response whose JSON body carries the provider
message `Token expired` is surfaced with the fixed client-side message
`Authentication failed. Check your access token.` — not verbatim. -/
theorem c2_counterexample :
    (runTool (.listBuckets "p") ⟨some "tok", none⟩
        (fun _ => ⟨401, none,
          .json (.jobj [("error", .jobj [("message", .jstr "Token expired")])])⟩)).2 =
      formatError (AuthenticationError "Authentication failed. Check your access token.") ∧
    "Authentication failed. Check your access token." ≠ "Token expired" := by
  constructor
  · rfl
  · decide

/-- C2 (amended): the provider's error message is surfaced verbatim only for
non-2xx statuses outside {429, 401, 403, 404} whose JSON body carries a
truthy `error.message` (with `API error: {status}` as fallback); statuses
429, 401, 403 and 404 get fixed client-side messages. -/
theorem c2_amended_error_messages (url : String) (resp : HttpResponse) :
    (resp.status = 429 → ∃ ra, handleResponse url resp =
      .error (RateLimitError "Rate limit exceeded" ra)) ∧
    (resp.status = 401 → handleResponse url resp =
      .error (AuthenticationError "Authentication failed. Check your access token.")) ∧
    (resp.status = 403 → handleResponse url resp =
      .error (PermissionDeniedError "Permission denied. Check your IAM permissions.")) ∧
    (resp.status = 404 → handleResponse url resp = .error (NotFoundError "Resource" url)) ∧
    (claimedKindOf resp.status = some ErrKind.apiError →
      handleResponse url resp =
        .error (GCloudApiError (extractErrorMessage resp.body resp.status) resp.status)) ∧
    (∀ v m, resp.body = .json v → jsIndex (jsIndex v "error") "message" = .jstr m → m ≠ "" →
      extractErrorMessage resp.body resp.status = m) := by
  refine ⟨?_, ?_, ?_, ?_, ?_, ?_⟩
  · intro h
    exact ⟨(match resp.retryAfterHeader with | some s => jsParseInt s | none => some 60),
      by simp [handleResponse, h]⟩
  · intro h
    simp [handleResponse, h]
  · intro h
    simp [handleResponse, h]
  · intro h
    simp [handleResponse, h]
  · intro hk
    unfold claimedKindOf at hk
    split_ifs at hk with h429 h401 h403 h404 h2xx
    · simp at hk
    · simp at hk
    · simp at hk
    · simp at hk
    · unfold handleResponse
      rw [if_neg h429, if_neg h401, if_neg h403, if_neg h404, if_pos h2xx]
  · intro v m hv hm hne
    rw [hv]
    unfold extractErrorMessage
    simp only [hm]
    have ht : jsTruthy (.jstr m) = true := by
      simp [jsTruthy, hne]
    rw [if_pos ht]
    simp [jsCoerceString]

/-- Witness for C2's amended theorem: a 401 response gets the fixed message,
and a 500 response with body `{"error":{"message":"boom"}}` surfaces `boom`. -/
theorem c2_amended_error_messages_witness :
    handleResponse "u" ⟨401, none, .json .jnull⟩ =
      .error (AuthenticationError "Authentication failed. Check your access token.") ∧
    extractErrorMessage (.json (.jobj [("error", .jobj [("message", .jstr "boom")])])) 500 =
      "boom" := by
  constructor
  · exact (c2_amended_error_messages "u" ⟨401, none, .json .jnull⟩).2.1 rfl
  · exact (c2_amended_error_messages "u"
      ⟨500, none, .json (.jobj [("error", .jobj [("message", .jstr "boom")])])⟩).2.2.2.2.2
      _ "boom" rfl rfl (by decide)

/-- C4: `listInstances` issues GET on the compute instances collection URL,
`deleteInstance` issues DELETE on that path extended by the instance name,
and every client operation's URL is its service's fixed base URL (per the
client's endpoint table) followed by a path built from the operation's
arguments — no other endpoint is ever contacted. -/
theorem c4_fixed_endpoints :
    (∀ p z : String,
      opUrl (.listInstances p z) =
        "https://compute.googleapis.com/compute/v1/projects/" ++ p ++ "/zones/" ++ z ++
          "/instances" ∧
      opMethod (.listInstances p z) = "GET") ∧
    (∀ p z n : String,
      opUrl (.deleteInstance p z n) =
        "https://compute.googleapis.com/compute/v1/projects/" ++ p ++ "/zones/" ++ z ++
          "/instances/" ++ n ∧
      opMethod (.deleteInstance p z n) = "DELETE") ∧
    (∀ op : ClientOp, ∃ rest, opUrl op = serviceBaseUrl (serviceOf op) ++ rest) := by
  refine ⟨fun p z => ⟨by rfl, rfl⟩, fun p z n => ⟨by rfl, rfl⟩, fun op => ?_⟩
  cases op
  case listRoles po =>
    cases po with
    | some p =>
        exact ⟨_, by simp only [opUrl, serviceOf, serviceBaseUrl, String.append_assoc]; rfl⟩
    | none =>
        exact ⟨_, by simp only [opUrl, serviceOf, serviceBaseUrl, String.append_assoc]; rfl⟩
  all_goals exact ⟨_, by simp only [opUrl, serviceOf, serviceBaseUrl, String.append_assoc]; rfl⟩

/-- C5: every outbound request (all go through `request`, and every client
call goes through `clientCall`) carries `Authorization: Bearer {token}`; with
an absent or empty token the operation fails with the authentication error
and no request is issued. -/
theorem c5_bearer_auth (creds : TenantCredentials) (transport : HttpRequest → HttpResponse) :
    (∀ (url : String) (opts : RequestOptions) (req : HttpRequest),
      req ∈ (request creds url opts transport).1 →
      ∃ tok, creds.accessToken = some tok ∧ tok ≠ "" ∧
        ("Authorization", "Bearer " ++ tok) ∈ req.headers) ∧
    (∀ (op : ClientOp) (req : HttpRequest),
      req ∈ (clientCall creds op transport).1 →
      ∃ tok, creds.accessToken = some tok ∧ tok ≠ "" ∧
        ("Authorization", "Bearer " ++ tok) ∈ req.headers) ∧
    (tokenPresent creds = false → ∀ (url : String) (opts : RequestOptions),
      request creds url opts transport =
        ([], .error (AuthenticationError
          "No access token provided. Include X-GCloud-Access-Token header."))) := by
  have hmain : ∀ (url : String) (opts : RequestOptions) (req : HttpRequest),
      req ∈ (request creds url opts transport).1 →
      ∃ tok, creds.accessToken = some tok ∧ tok ≠ "" ∧
        ("Authorization", "Bearer " ++ tok) ∈ req.headers := by
    intro url opts req hmem
    rcases request_shape creds url opts transport with ⟨hf, he⟩ | ⟨tok, htk, hne, he⟩
    · rw [he] at hmem
      exact absurd hmem (by simp)
    · rw [he] at hmem
      rw [List.mem_singleton] at hmem
      subst hmem
      exact ⟨tok, htk, hne, by simp⟩
  refine ⟨hmain, ?_, ?_⟩
  · intro op req hmem
    rcases hb : opBody op with e | b
    · rw [clientCall_fst, hb] at hmem
      exact absurd hmem (by simp)
    · have hcc : clientCall creds op transport =
          request creds (opUrl op) { method := opMethod op, body := b } transport := by
        unfold clientCall
        rw [hb]
      rw [hcc] at hmem
      exact hmain _ _ req hmem
  · intro hfalse url opts
    rcases request_shape creds url opts transport with ⟨hf, he⟩ | ⟨tok, htk, hne, he⟩
    · exact he
    · exfalso
      unfold tokenPresent at hfalse
      rw [htk] at hfalse
      simp at hfalse
      exact hne hfalse

/-- Witness for C5: with no token, a concrete request fails with the
authentication error before any transport call. -/
theorem c5_bearer_auth_witness :
    request (⟨none, none⟩ : TenantCredentials) "u" {} (fun _ => ⟨200, none, .json .jnull⟩) =
      ([], .error (AuthenticationError
        "No access token provided. Include X-GCloud-Access-Token header.")) :=
  (c5_bearer_auth ⟨none, none⟩ (fun _ => ⟨200, none, .json .jnull⟩)).2.2 rfl "u" {}

/-- Mirrors the `GCloudClientImpl` class, whose only field is the tenant
credentials captured at construction. -/
structure GCloudClientImpl where
  credentials : TenantCredentials
deriving DecidableEq, Repr

/-- Embeds `createGCloudClient` (`src/client.ts`): a fresh client holding the
per-request credentials, created per request by `createStatelessServer`. -/
def createGCloudClient (credentials : TenantCredentials) : GCloudClientImpl :=
  { credentials := credentials }

/-- C8 counterexample: two invocations of `gcloud_set_project_iam_policy`
with identical arguments and identical credentials, against providers whose
get-policy responses carry different etags, construct identical first
requests but different second requests — the set request's body embeds the
`version`/`etag` of the first call's response, so the constructed request is
not a function of arguments and credentials alone. -/
theorem c8_counterexample :
    ((runTool (.setProjectIamPolicy "proj" []) ⟨some "tok", some "proj"⟩
        (fun _ => ⟨200, none,
          .json (.jobj [("version", .jint 1), ("etag", .jstr "e1")])⟩)).1).take 1 =
      ((runTool (.setProjectIamPolicy "proj" []) ⟨some "tok", some "proj"⟩
        (fun _ => ⟨200, none,
          .json (.jobj [("version", .jint 1), ("etag", .jstr "e2")])⟩)).1).take 1 ∧
    (runTool (.setProjectIamPolicy "proj" []) ⟨some "tok", some "proj"⟩
        (fun _ => ⟨200, none,
          .json (.jobj [("version", .jint 1), ("etag", .jstr "e1")])⟩)).1 ≠
      (runTool (.setProjectIamPolicy "proj" []) ⟨some "tok", some "proj"⟩
        (fun _ => ⟨200, none,
          .json (.jobj [("version", .jint 1), ("etag", .jstr "e2")])⟩)).1 := by
  constructor
  · rfl
  · decide

/-- C8 (amended): the client holds no state but its captured credentials, so
client calls are a deterministic function of the operation's arguments and
credentials — equal-credential clients make identical calls, and every
client call's request trace is independent of the transport's responses
(hence of earlier or concurrent invocations).  Every embedded tool handler's
requests are likewise response-independent except
`gcloud_set_project_iam_policy`, whose second request depends additionally on
the provider's response to that same invocation's first (get) request:
transports agreeing on the get response yield identical request traces. -/
theorem c8_amended_stateless (cl1 cl2 : GCloudClientImpl)
    (h : cl1.credentials = cl2.credentials) (op : ClientOp)
    (tr1 tr2 : HttpRequest → HttpResponse) :
    clientCall cl1.credentials op tr1 = clientCall cl2.credentials op tr1 ∧
    (clientCall cl1.credentials op tr1).1 = (clientCall cl2.credentials op tr2).1 ∧
    (∀ t : ToolCall,
      (match t with
        | .setProjectIamPolicy _ _ => True
        | _ => (runTool t cl1.credentials tr1).1 = (runTool t cl2.credentials tr2).1)) ∧
    (∀ (p : String) (bindings : List JVal) (tok : String),
      cl1.credentials.accessToken = some tok → tok ≠ "" →
      tr1 { method := opMethod (.getProjectIamPolicy p), url := opUrl (.getProjectIamPolicy p),
            headers := [("Authorization", "Bearer " ++ tok),
              ("Content-Type", "application/json")],
            body := some (jsonStringify (.jobj [])) } =
        tr2 { method := opMethod (.getProjectIamPolicy p),
              url := opUrl (.getProjectIamPolicy p),
              headers := [("Authorization", "Bearer " ++ tok),
                ("Content-Type", "application/json")],
              body := some (jsonStringify (.jobj [])) } →
      (runTool (.setProjectIamPolicy p bindings) cl1.credentials tr1).1 =
        (runTool (.setProjectIamPolicy p bindings) cl2.credentials tr2).1) := by
  rw [h]
  refine ⟨rfl, ?_, ?_, ?_⟩
  · rw [clientCall_fst, clientCall_fst]
  · intro t
    cases t with
    | listBuckets p =>
        show (clientCall cl2.credentials (.listBuckets p) tr1).1 =
          (clientCall cl2.credentials (.listBuckets p) tr2).1
        rw [clientCall_fst, clientCall_fst]
    | getTopic p tn =>
        show (clientCall cl2.credentials (.getTopic p tn) tr1).1 =
          (clientCall cl2.credentials (.getTopic p tn) tr2).1
        rw [clientCall_fst, clientCall_fst]
    | pullMessages p sn mm =>
        show (clientCall cl2.credentials (.pullMessages p sn mm) tr1).1 =
          (clientCall cl2.credentials (.pullMessages p sn mm) tr2).1
        rw [clientCall_fst, clientCall_fst]
    | publishMessage p tn d attrs =>
        rcases hB : btoa d with _ | enc
        · simp [runTool, hB]
        · simp only [runTool, hB]
          rw [clientCall_fst, clientCall_fst]
    | setProjectIamPolicy p bindings => trivial
  · intro p bindings tok htk hne htr
    have e1 := clientCall_with_token cl2.credentials (.getProjectIamPolicy p) _ rfl tok htk
      hne tr1
    have e2 := clientCall_with_token cl2.credentials (.getProjectIamPolicy p) _ rfl tok htk
      hne tr2
    rw [htr] at e1
    rcases hr : handleResponse (opUrl (.getProjectIamPolicy p)) (tr2
        { method := opMethod (.getProjectIamPolicy p), url := opUrl (.getProjectIamPolicy p),
          headers := [("Authorization", "Bearer " ++ tok), ("Content-Type", "application/json")],
          body := some (jsonStringify (.jobj [])) }) with e | ov
    · rw [hr] at e1 e2
      simp only [runTool, e1, e2]
    · cases ov with
      | none =>
          rw [hr] at e1 e2
          simp only [runTool, e1, e2]
      | some cur =>
          rw [hr] at e1 e2
          simp only [runTool, e1, e2]
          rw [clientCall_fst, clientCall_fst]

/-- Witness for C8's amended theorem: equal-credential clients, a client
call whose trace ignores the response, and a concrete two-call
`gcloud_set_project_iam_policy` run replayed against an agreeing transport. -/
theorem c8_amended_stateless_witness :
    (clientCall (createGCloudClient ⟨some "tok", some "pr"⟩).credentials (.listBuckets "pr")
        (fun _ => ⟨200, none, .json .jnull⟩)).1 =
      (clientCall (createGCloudClient ⟨some "tok", some "pr"⟩).credentials (.listBuckets "pr")
        (fun _ => ⟨500, none, .text "x"⟩)).1 ∧
    (runTool (.setProjectIamPolicy "pr" [])
        (createGCloudClient ⟨some "tok", some "pr"⟩).credentials
        (fun _ => ⟨200, none, .json (.jobj [("etag", .jstr "e")])⟩)).1 =
      (runTool (.setProjectIamPolicy "pr" [])
        (createGCloudClient ⟨some "tok", some "pr"⟩).credentials
        (fun _ => ⟨200, none, .json (.jobj [("etag", .jstr "e")])⟩)).1 := by
  constructor
  · exact (c8_amended_stateless (createGCloudClient ⟨some "tok", some "pr"⟩)
      (createGCloudClient ⟨some "tok", some "pr"⟩) rfl (.listBuckets "pr")
      (fun _ => ⟨200, none, .json .jnull⟩) (fun _ => ⟨500, none, .text "x"⟩)).2.1
  · exact (c8_amended_stateless (createGCloudClient ⟨some "tok", some "pr"⟩)
      (createGCloudClient ⟨some "tok", some "pr"⟩) rfl (.listBuckets "pr")
      (fun _ => ⟨200, none, .json (.jobj [("etag", .jstr "e")])⟩)
      (fun _ => ⟨200, none, .json (.jobj [("etag", .jstr "e")])⟩)).2.2.2 "pr" [] "tok" rfl
      (by decide) rfl

/-- Whether `pat` occurs as a substring of `s` (for inspecting rendered
envelope texts). -/
def strContains (s pat : String) : Bool :=
  (List.range (s.length + 1)).any fun i => pat.data.isPrefixOf (s.data.drop i)

/-- The keys that actually appear in the JSON serialization of an object
(fields holding `undefined` are omitted by `JSON.stringify`). -/
def serializedKeys (v : JVal) : List String :=
  match v with
  | .jobj fs => (jsonSerObj none fs).map Prod.fst
  | _ => []

/-- C6 counterexample: when the underlying call throws an error that is not
one of the API taxonomy errors — here the `SyntaxError` from parsing a
non-JSON 200 body — the error envelope's JSON text contains `error: true`
but no `code` or `statusCode` field, refuting the claim that the text always
carries all four of name, message, code and statusCode. -/
theorem c6_counterexample :
    ((runTool (.listBuckets "p") ⟨some "tok", none⟩
        (fun _ => ⟨200, none, .text "<html>"⟩)).2).isError = some true ∧
    ∃ txt,
      (runTool (.listBuckets "p") ⟨some "tok", none⟩
          (fun _ => ⟨200, none, .text "<html>"⟩)).2.content = [{ type := "text", text := txt }] ∧
      strContains txt "\"error\": true" = true ∧
      strContains txt "statusCode" = false ∧
      strContains txt "\"code\"" = false := by
  refine ⟨rfl, jsonStringifyPretty (formatErrorPayload jsonParseErr), rfl, ?_, ?_, ?_⟩ <;> decide

/-- C6 (amended): every tool response is the uniform
`{ content: [{ type: 'text', text }] }` envelope; success responses carry the
JSON (or markdown) rendering of the data with no `isError` key, and error
responses carry `isError: true` with a JSON object containing `error: true`,
the error's name and message, plus its `code` and `statusCode` whenever the
error has them — all five taxonomy errors do — while fields the thrown error
lacks are omitted from the serialization. -/
theorem c6_amended_envelope :
    (∀ (data : JVal) (rt : Option String),
      formatResponse data .json rt =
        { content := [{ type := "text", text := jsonStringifyPretty data }], isError := none }) ∧
    (∀ (data : JVal) (rt : Option String),
      formatResponse data .markdown rt =
        { content := [{ type := "text", text := formatAsMarkdown data rt }], isError := none }) ∧
    (∀ e : JsError,
      formatError e =
        { content := [{ type := "text", text := jsonStringifyPretty (formatErrorPayload e) }],
          isError := some true }) ∧
    (∀ e : JsError,
      serializedKeys (formatErrorPayload e) =
        ["error", "name", "message"] ++
          (match e.code.getD .jundefined with | .jundefined => [] | _ => ["code"]) ++
          (match e.statusCode with | some _ => ["statusCode"] | none => [])) ∧
    (∀ m, serializedKeys (formatErrorPayload (AuthenticationError m)) =
      ["error", "name", "message", "code", "statusCode"]) ∧
    (∀ m, serializedKeys (formatErrorPayload (PermissionDeniedError m)) =
      ["error", "name", "message", "code", "statusCode"]) ∧
    (∀ r i, serializedKeys (formatErrorPayload (NotFoundError r i)) =
      ["error", "name", "message", "code", "statusCode"]) ∧
    (∀ m ra, serializedKeys (formatErrorPayload (RateLimitError m ra)) =
      ["error", "name", "message", "code", "statusCode"]) ∧
    (∀ m st, serializedKeys (formatErrorPayload (GCloudApiError m st)) =
      ["error", "name", "message", "code", "statusCode"]) := by
  refine ⟨fun data rt => rfl, fun data rt => rfl, fun e => rfl, ?_,
    fun m => rfl, fun m => rfl, fun r i => rfl, fun m ra => rfl, fun m st => rfl⟩
  intro e
  rcases e with ⟨nm, msg, c, sc⟩
  rcases c with _ | cv
  · rcases sc with _ | scn <;> rfl
  · cases cv <;> rcases sc with _ | scn <;> rfl

/-- C7 counterexample: `gcloud_pull_messages` does not pass the provider's
resource data through unmodified — for a received message whose `data` is
`"aGk="`, the envelope carries the flattened object with `data` decoded to
`"hi"`, and the envelope differs from what rendering the provider's
`receivedMessages` array unchanged would give. -/
theorem c7_counterexample :
    (runTool (.pullMessages "p" "s" 10) ⟨some "tok", none⟩
        (fun _ => ⟨200, none, .json (.jobj [("receivedMessages", .jarr
          [.jobj [("ackId", .jstr "a1"),
            ("message", .jobj [("data", .jstr "aGk="), ("messageId", .jstr "m1")])]])])⟩)).2 =
      formatResponse (.jarr
        [.jobj [("ackId", .jstr "a1"), ("messageId", .jstr "m1"), ("data", .jstr "hi"),
          ("attributes", .jundefined), ("publishTime", .jundefined)]]) .json (some "messages") ∧
    (runTool (.pullMessages "p" "s" 10) ⟨some "tok", none⟩
        (fun _ => ⟨200, none, .json (.jobj [("receivedMessages", .jarr
          [.jobj [("ackId", .jstr "a1"),
            ("message", .jobj [("data", .jstr "aGk="), ("messageId", .jstr "m1")])]])])⟩)).2 ≠
      formatResponse (.jarr
        [.jobj [("ackId", .jstr "a1"),
          ("message", .jobj [("data", .jstr "aGk="), ("messageId", .jstr "m1")])]])
        .json (some "messages") := by
  constructor
  · rfl
  · decide

/-- C7 (amended): read-style tools do pass the provider object through
unmodified — `gcloud_get_topic` renders exactly the JSON value the provider
returned — but `gcloud_pull_messages` renders the flattened, base64-decoded
transform of the provider's `receivedMessages` (and create/delete tools wrap
results in confirmation objects). -/
theorem c7_amended_passthrough :
    (∀ (p tn : String) (creds : TenantCredentials)
      (transport : HttpRequest → HttpResponse) (v : JVal),
      tokenPresent creds = true →
      (∀ req, transport req = ⟨200, none, .json v⟩) →
      (runTool (.getTopic p tn) creds transport).2 = formatResponse v .json (some "topic")) ∧
    (∀ (p sn : String) (mm : Int) (creds : TenantCredentials)
      (transport : HttpRequest → HttpResponse) (v : JVal) (msgs : List JVal),
      tokenPresent creds = true →
      (∀ req, transport req = ⟨200, none, .json v⟩) →
      decodeReceivedMessages (jsOr (jsIndex v "receivedMessages") (.jarr [])) = .ok msgs →
      (runTool (.pullMessages p sn mm) creds transport).2 =
        formatResponse (.jarr msgs) .json (some "messages")) := by
  constructor
  · intro p tn creds transport v htok htr
    have hrt : (runTool (.getTopic p tn) creds transport).2 =
        match (request creds (opUrl (.getTopic p tn))
            { method := opMethod (.getTopic p tn), body := none } transport).2 with
        | .error e => formatError e
        | .ok none => formatResponse .jundefined .json (some "topic")
        | .ok (some v') => formatResponse v' .json (some "topic") := rfl
    rcases request_shape creds (opUrl (.getTopic p tn))
        { method := opMethod (.getTopic p tn), body := none } transport with
      ⟨hf, he⟩ | ⟨tok, htk, hne, he⟩
    · rw [htok] at hf
      cases hf
    · rw [hrt, he]
      rw [htr]
      rfl
  · intro p sn mm creds transport v msgs htok htr hdec
    have hrt : (runTool (.pullMessages p sn mm) creds transport).2 =
        match (request creds (opUrl (.pullMessages p sn mm))
            { method := opMethod (.pullMessages p sn mm),
              body := some (jsonStringify (.jobj [("maxMessages", .jint mm)])) } transport).2 with
        | .error e => formatError e
        | .ok none => formatError (typeErrorRead "receivedMessages")
        | .ok (some v') =>
            match decodeReceivedMessages (jsOr (jsIndex v' "receivedMessages") (.jarr [])) with
            | .error e => formatError e
            | .ok msgs' => formatResponse (.jarr msgs') .json (some "messages") := rfl
    rcases request_shape creds (opUrl (.pullMessages p sn mm))
        { method := opMethod (.pullMessages p sn mm),
          body := some (jsonStringify (.jobj [("maxMessages", .jint mm)])) } transport with
      ⟨hf, he⟩ | ⟨tok, htk, hne, he⟩
    · rw [htok] at hf
      cases hf
    · rw [hrt, he]
      rw [htr]
      show (match decodeReceivedMessages (jsOr (jsIndex v "receivedMessages") (.jarr [])) with
        | .error e => formatError e
        | .ok msgs' => formatResponse (.jarr msgs') .json (some "messages")) =
        formatResponse (.jarr msgs) .json (some "messages")
      rw [hdec]

/-- Witness for C7's amended theorem at a concrete topic object. -/
theorem c7_amended_passthrough_witness :
    (runTool (.getTopic "p" "t") ⟨some "tok", none⟩
        (fun _ => ⟨200, none, .json (.jobj [("name", .jstr "t")])⟩)).2 =
      formatResponse (.jobj [("name", .jstr "t")]) .json (some "topic") :=
  (c7_amended_passthrough).1 "p" "t" ⟨some "tok", none⟩
    (fun _ => ⟨200, none, .json (.jobj [("name", .jstr "t")])⟩)
    (.jobj [("name", .jstr "t")]) rfl (fun _ => rfl)

theorem base64Encode_ne_nil : ∀ l : List Nat, l ≠ [] → base64Encode l ≠ []
  | [], h => absurd rfl h
  | [_], _ => by simp [base64Encode]
  | [_, _], _ => by simp [base64Encode]
  | _ :: _ :: _ :: _, _ => by simp [base64Encode]

/-- C9 counterexample: the published data for the empty string is
`btoa "" = ""`, and `atob "" = ""`, but the pull handler's truthiness check
(`rm.message?.data ? atob(...) : undefined`) maps a received empty `data`
field to `undefined` rather than to the empty string — so pulling back the
exact published data does not yield the original string for `s = ""`. -/
theorem c9_counterexample :
    btoa "" = some "" ∧
    atob "" = some "" ∧
    decodeReceivedMessage
        (.jobj [("ackId", .jstr "a"), ("message", .jobj [("data", .jstr "")])]) =
      .ok (.jobj [("ackId", .jstr "a"), ("messageId", .jundefined), ("data", .jundefined),
        ("attributes", .jundefined), ("publishTime", .jundefined)]) ∧
    JVal.jundefined ≠ JVal.jstr "" := by
  refine ⟨rfl, rfl, rfl, fun h => by cases h⟩

/-- C9 (amended): `atob` inverts `btoa` on every Latin-1 string (the encoding
is non-empty when the string is); `gcloud_publish_message` sends exactly
`btoa(s)` as the message's `data`; the pull handler decodes every truthy
(non-empty) received `data` field `d` to `atob(d)` — so a non-empty published
string round-trips — while an empty received `data` is rendered `undefined`;
and for any string with a character above U+00FF, publishing throws before
any request is issued. -/
theorem c9_amended_base64_roundtrip :
    (∀ s : String, (∀ c ∈ s.data, c.toNat < 256) →
      ∃ enc, btoa s = some enc ∧ atob enc = some s ∧ (s ≠ "" → enc ≠ "")) ∧
    (∀ (p tn s : String) (attrs : Option (List (String × String)))
      (creds : TenantCredentials) (transport : HttpRequest → HttpResponse) (enc : String),
      btoa s = some enc →
      ∀ req ∈ (runTool (.publishMessage p tn s attrs) creds transport).1,
        req.body = some (jsonStringify (.jobj [("messages", .jarr
          [.jobj [("data", .jstr enc),
            ("attributes", match attrs with
              | some attrList => .jobj (attrList.map fun kv => (kv.1, JVal.jstr kv.2))
              | none => .jundefined)]])]))) ∧
    (∀ (rm : JVal) (d s : String), d ≠ "" → atob d = some s →
      jsIndex (jsIndex rm "message") "data" = .jstr d →
      decodeReceivedMessage rm =
        .ok (.jobj [("ackId", jsIndex rm "ackId"),
          ("messageId", jsIndex (jsIndex rm "message") "messageId"),
          ("data", .jstr s),
          ("attributes", jsIndex (jsIndex rm "message") "attributes"),
          ("publishTime", jsIndex (jsIndex rm "message") "publishTime")])) ∧
    (∀ s : String, (∃ c ∈ s.data, 255 < c.toNat) →
      ∀ (p tn : String) (attrs : Option (List (String × String)))
        (creds : TenantCredentials) (transport : HttpRequest → HttpResponse),
        (runTool (.publishMessage p tn s attrs) creds transport).1 = [] ∧
        (runTool (.publishMessage p tn s attrs) creds transport).2.isError = some true) := by
  refine ⟨?_, ?_, ?_, ?_⟩
  · intro s hlatin
    obtain ⟨enc, he, hdec⟩ := atob_btoa s hlatin
    refine ⟨enc, he, hdec, fun hs => ?_⟩
    have : enc = String.mk (base64Encode (s.data.map Char.toNat)) := by
      unfold btoa at he
      rw [if_pos (by rw [List.all_eq_true]; intro c hc; simpa using hlatin c hc)] at he
      exact (Option.some.injEq _ _ ▸ he).symm
    subst this
    intro hcon
    have hdata : s.data ≠ [] := by
      intro hnil
      apply hs
      cases s
      simp at hnil
      rw [hnil]
    have := base64Encode_ne_nil (s.data.map Char.toNat) (by simpa using hdata)
    apply this
    have := congrArg String.data hcon
    simpa using this
  · intro p tn s attrs creds transport enc hB req hmem
    have key : ∀ (msgs : List JVal) (r : HttpRequest),
        r ∈ (clientCall creds (.publishMessage p tn msgs) transport).1 →
        r.body = some (jsonStringify (.jobj [("messages", .jarr msgs)])) := by
      intro msgs r hm
      have hm2 : r ∈ (request creds (opUrl (.publishMessage p tn msgs))
          { method := "POST",
            body := some (jsonStringify (.jobj [("messages", .jarr msgs)])) } transport).1 := hm
      rcases request_shape creds (opUrl (.publishMessage p tn msgs))
          { method := "POST",
            body := some (jsonStringify (.jobj [("messages", .jarr msgs)])) } transport with
        ⟨hf, he⟩ | ⟨tok, htk, hne, he⟩
      · rw [he] at hm2
        exact absurd hm2 (by simp)
      · rw [he] at hm2
        rw [List.mem_singleton] at hm2
        subst hm2
        rfl
    rcases attrs with _ | attrList
    · simp only [runTool, hB] at hmem
      exact key _ req hmem
    · simp only [runTool, hB] at hmem
      exact key _ req hmem
  · intro rm d s hd hdec hdata
    have ht : jsTruthy (.jstr d) = true := by simp [jsTruthy, hd]
    simp only [decodeReceivedMessage]
    rw [hdata, if_pos ht]
    simp [jsCoerceString, hdec]
    rfl
  · intro s hbig p tn attrs creds transport
    have hB : btoa s = none := by
      unfold btoa
      rw [if_neg ?_]
      rw [Bool.not_eq_true, List.all_eq_false]
      obtain ⟨c, hc, hgt⟩ := hbig
      exact ⟨c, hc, by simpa using hgt⟩
    constructor
    · simp [runTool, hB]
    · simp [runTool, hB, formatError]

/-- Witness for C9's amended theorem: `"hi"` encodes to a non-empty base64
string that decodes back to `"hi"`. -/
theorem c9_amended_base64_roundtrip_witness :
    ∃ enc, btoa "hi" = some enc ∧ atob enc = some "hi" ∧ ("hi" ≠ "" → enc ≠ "") :=
  (c9_amended_base64_roundtrip).1 "hi" (by decide)

/-- C10: `formatArrayAsMarkdown` reports `No {resourceType} found.` on an
empty array (defaulting to `items` when the resource type is absent or
empty); on a non-empty array whose first element is an object it renders a
table whose columns are exactly the first six keys of the first element — so
keys appearing only in later elements never become columns — with
`null`/`undefined` cells as `-`, object cells as `[object]`, and every other
cell as `String(value)` truncated to 50 characters.  (`null`/`undefined` row
elements are excluded: real JS throws a `TypeError` on their property reads,
which the embedding does not model.) -/
theorem c10_markdown_table :
    (∀ rt : String, rt ≠ "" → formatArrayAsMarkdown [] (some rt) = "No " ++ rt ++ " found.") ∧
    formatArrayAsMarkdown [] none = "No items found." ∧
    (∀ (f : List (String × JVal)) (rest : List JVal) (rt : Option String),
      (∀ x ∈ rest, x ≠ JVal.jnull ∧ x ≠ JVal.jundefined) →
      formatArrayAsMarkdown (.jobj f :: rest) rt =
        String.intercalate "\n"
          (("| " ++ String.intercalate " | " ((f.map Prod.fst).take 6) ++ " |") ::
            ("| " ++ String.intercalate " | "
              (((f.map Prod.fst).take 6).map fun _ => "---") ++ " |") ::
            (JVal.jobj f :: rest).map fun item =>
              "| " ++ String.intercalate " | " (((f.map Prod.fst).take 6).map fun key =>
                match jsIndex item key with
                | .jnull => "-"
                | .jundefined => "-"
                | .jobj _ => "[object]"
                | .jarr _ => "[object]"
                | v => (jsCoerceString v).take 50) ++ " |")) := by
  refine ⟨?_, rfl, ?_⟩
  · intro rt h
    simp [formatArrayAsMarkdown, jsStrOr, h]
  · intro f rest rt _
    rfl

set_option maxRecDepth 4000 in
/-- Witness for C10 at a two-row concrete array: the second row's key is not
a column, its missing `name` cell renders `-`. -/
theorem c10_markdown_table_witness :
    formatArrayAsMarkdown [] (some "buckets") = "No buckets found." ∧
    formatArrayAsMarkdown [.jobj [("name", .jstr "b1")], .jobj [("other", .jint 2)]]
        (some "t") =
      "| name |\n| --- |\n| b1 |\n| - |" := by
  constructor
  · exact c10_markdown_table.1 "buckets" (by decide)
  · have h := c10_markdown_table.2.2 [("name", JVal.jstr "b1")] [.jobj [("other", JVal.jint 2)]]
      (some "t") (by
        intro x hx
        rw [List.mem_singleton] at hx
        subst hx
        constructor
        · intro hh
          cases hh
        · intro hh
          cases hh)
    rw [h]
    decide

end PrimroseGCloud
